import Mathlib

/-!
# GreenShield — scan flow of `app/(tabs)/Camera.js`

Shallow embedding of the `CameraScreen` component: its React state fields, its
event handlers (`takePicture`, `pickImage`, `handleUsePhoto`, `handleRetake`,
the modal dismiss callbacks), the helper `getSeverityColor`, the set of
controls each render branch offers and the result section of the modal; and of
the handler `handleLogin` of `app/index.js`.

The event loop comes in two forms. `step`/`run` apply the handlers and never look at
the render, so they reach every state the screen can be in and some more; invariants
are proved over them. `stepMounted`/`runMounted` stop at the first state whose render
throws, which unmounts the screen; traces and statements about what the user can do
next are made over them.

Conventions.
* A JavaScript string is the list of its UTF-16 code units, so `length`,
  `substring` and `startsWith` count exactly what the engine counts.
* A `useState` setter called with a value is a field update of the state
  record; the handlers only ever call setters with values that do not depend
  on the previous state (except the two toggles, which use the updater form).
* Host built-ins that are not code of the repository (`JSON.parse`,
  `String.prototype.toUpperCase`, `Platform.OS`, the text of an engine
  `TypeError`) are parameters, collected in `Host`.
-/

namespace GreenShield

/-! ## JavaScript values -/

/-- A JavaScript string: the list of its UTF-16 code units. -/
abbrev JSString := List Nat

/-- Code units of a source literal (all literals of the program are ASCII). -/
def lit (s : String) : JSString := s.toList.map Char.toNat

/-- Template-literal rendering of a non-negative integer such as `response.status`. -/
def numToString (n : Nat) : JSString := lit (toString n)

/-- Values produced by `JSON.parse`, plus `undefined` (the value of a missing property).
A number is given by a pair denoting its value `mantissa * 10 ^ exponent`, the value
of the parsed double. -/
inductive JSValue where
  | undefined : JSValue
  | null : JSValue
  | bool (b : Bool) : JSValue
  | num (mantissa : Int) (exponent : Int) : JSValue
  | str (s : JSString) : JSValue
  | arr (items : List JSValue) : JSValue
  | obj (fields : List (JSString × JSValue)) : JSValue

/-- A thrown value as far as the `catch` clauses look at it: its `message` property
(`none` when the property is missing). -/
structure JSError where
  message : Option JSString

/-- Host built-ins used by the screen. -/
structure Host where
  /-- Value of `Platform.OS`. -/
  os : JSString
  /-- Outcome of `JSON.parse`; `none` stands for a thrown `SyntaxError`. -/
  jsonParse : JSString → Option JSValue
  /-- Result of `String.prototype.toUpperCase`. -/
  toUpperCase : JSString → JSString
  /-- Message of the `TypeError` thrown when property `key` of `null` is read. -/
  nullReadMessage : JSString → JSString
  /-- Value of `API_URLS.UPLOAD_SCAN` (module `_config`, an import of the screen). -/
  uploadScanUrl : JSString

/-- Truthiness of a string-or-null value: `null`/`undefined` and `""` are falsy. -/
def truthy : Option JSString → Bool
  | some (_ :: _) => true
  | _ => false

/-- The expression `a || b` for a string-or-missing `a` and a string `b`. -/
def orElse (a : Option JSString) (b : JSString) : JSString :=
  match a with
  | some (c :: cs) => c :: cs
  | _ => b

/-- Truthiness (`ToBoolean`) of a value; a parsed number is falsy exactly when it is zero. -/
def JSValue.truthy : JSValue → Bool
  | JSValue.undefined => false
  | JSValue.null => false
  | JSValue.bool b => b
  | JSValue.num mantissa _ => decide (mantissa ≠ 0)
  | JSValue.str s => !s.isEmpty
  | JSValue.arr _ => true
  | JSValue.obj _ => true

/-- The expression `a || b` on values. -/
def JSValue.or (a b : JSValue) : JSValue := if a.truthy then a else b

/-- Look up the first binding of `key` in the field list of an object. -/
def lookupField (key : JSString) : List (JSString × JSValue) → JSValue
  | [] => JSValue.undefined
  | (k, v) :: rest => if k = key then v else lookupField key rest

/-- Property read `v.key` for a data key (`data`, `message`, ...) that no built-in
prototype defines: reading from `null`/`undefined` throws a `TypeError`, reading from
an object yields the field or `undefined`, reading from any other value yields
`undefined`. -/
def getProp (host : Host) (v : JSValue) (key : JSString) : Except JSError JSValue :=
  match v with
  | JSValue.null => Except.error ⟨some (host.nullReadMessage key)⟩
  | JSValue.undefined => Except.error ⟨some (host.nullReadMessage key)⟩
  | JSValue.obj fields => Except.ok (lookupField key fields)
  | _ => Except.ok JSValue.undefined

/-! ## Component state -/

/-- The `useState` fields of `CameraScreen`. -/
structure ScreenState where
  capturedImage : Option JSString
  facing : JSString
  flash : JSString
  isUploading : Bool
  modalVisible : Bool
  scanResult : JSValue

/-- State of the first render: the initial values passed to `useState`. -/
def initialState : ScreenState :=
  { capturedImage := none
    facing := lit "back"
    flash := lit "off"
    isUploading := false
    modalVisible := false
    scanResult := JSValue.null }

/-! ## Effects visible outside the component -/

/-- What pressing an alert button runs. -/
inductive ButtonAction where
  | signOut : ButtonAction
  deriving DecidableEq

/-- One entry of the button array passed to `Alert.alert`. -/
structure AlertButton where
  text : JSString
  onPress : List ButtonAction
  deriving DecidableEq

/-- One part appended to the `FormData` body. -/
structure FormPart where
  field : JSString
  uri : JSString
  name : JSString
  type : JSString

/-- The arguments of the `fetch` call. -/
structure Request where
  url : JSString
  method : JSString
  headers : List (JSString × JSString)
  body : List FormPart

/-- Side effects of a handler, in program order. -/
inductive Effect where
  | fetch (req : Request) : Effect
  | alert (title : JSString) (message : JSValue) (buttons : List AlertButton) : Effect

/-- How the awaited `fetch(...)` / `response.text()` pair settles. -/
inductive FetchOutcome where
  /-- One of the two promises rejected with the given error. -/
  | rejected (error : JSError) : FetchOutcome
  /-- A response arrived: its `status` and its body text. -/
  | response (status : Nat) (text : JSString) : FetchOutcome

/-- The getter `response.ok`: status in the range 200–299. -/
def responseOk (status : Nat) : Bool := decide (200 ≤ status) && decide (status ≤ 299)

/-! ## `handleUsePhoto` -/

/-- Lines 107–110: the `uri` sent in the body. -/
def normalizeUri (os : JSString) (capturedImage : JSString) : JSString :=
  if os = lit "android" ∧ ¬ (lit "file://").isPrefixOf capturedImage = true
      ∧ ¬ (lit "content://").isPrefixOf capturedImage = true then
    lit "file://" ++ capturedImage
  else
    capturedImage

/-- Lines 112–127: the `FormData` body and the `fetch` arguments. -/
def buildRequest (host : Host) (userToken : JSString) (capturedImage : JSString) : Request :=
  { url := host.uploadScanUrl
    method := lit "POST"
    headers := [(lit "Authorization", lit "bearer " ++ userToken)]
    body := [{ field := lit "image"
               uri := normalizeUri host.os capturedImage
               name := lit "scan.jpg"
               type := lit "image/jpeg" }] }

/-- Lines 129–156: the rest of the `try` block once the request has settled. The
result is either the normal completion (new state and alerts) or the thrown error.
The three setters of lines 143–145 are taken to return. Whether the screen can be
rendered in the state they produce is a separate question, answered by
`screenRenders`: when it cannot, the screen unmounts (and on a root that renders
synchronously the throw surfaces in this `try` block), so statements about the success
path are made for results that render. -/
def afterFetch (host : Host) (s : ScreenState) :
    FetchOutcome → Except JSError (ScreenState × List Effect)
  | FetchOutcome.rejected e => Except.error e
  | FetchOutcome.response status responseText =>
    match host.jsonParse responseText with
    | none =>
      Except.error ⟨some (lit "Server Error (" ++ numToString status ++ lit "): "
        ++ responseText.take 100)⟩
    | some data =>
      if responseOk status then
        match getProp host data (lit "data") with
        | Except.error e => Except.error e
        | Except.ok result =>
          Except.ok ({ s with scanResult := result, modalVisible := true,
                              capturedImage := none }, [])
      else if status = 401 then
        Except.ok (s, [Effect.alert (lit "Session Expired")
          (JSValue.str (lit "Please log in again."))
          [{ text := lit "OK", onPress := [ButtonAction.signOut] }]])
      else
        match getProp host data (lit "message") with
        | Except.error e => Except.error e
        | Except.ok message => Except.ok (s, [Effect.alert (lit "Upload Failed")
            (message.or (JSValue.str (lit "Something went wrong."))) []])

/-- Lines 157–162: the `catch` clause (an `Error` alert showing the message of the
thrown value, or the fallback text) and the `finally` clause. A throw happens before
any setter of the `try` block has run, so the `catch` path starts from the state `s`. -/
def settleUpload (host : Host) (s : ScreenState) (outcome : FetchOutcome) :
    ScreenState × List Effect :=
  match afterFetch host s outcome with
  | Except.ok (s1, effects) => ({ s1 with isUploading := false }, effects)
  | Except.error e =>
    ({ s with isUploading := false },
     [Effect.alert (lit "Error")
        (JSValue.str (orElse e.message (lit "Could not connect to server."))) []])

/-- Lines 102–127: the guard, `setIsUploading(true)` and the request that is sent;
`none` is the early `return` taken when no image is held. -/
def startUpload (host : Host) (userToken : JSString) (s : ScreenState) :
    Option (ScreenState × Request) :=
  match s.capturedImage with
  | some (c :: cs) =>
    some ({ s with isUploading := true }, buildRequest host userToken (c :: cs))
  | _ => none

/-- The handler `handleUsePhoto` run to completion against a network that settles
the request with `net req`: final state and effects in program order. -/
def handleUsePhoto (host : Host) (userToken : JSString) (net : Request → FetchOutcome)
    (s : ScreenState) : ScreenState × List Effect :=
  match startUpload host userToken s with
  | none => (s, [])
  | some (s1, req) =>
    let r := settleUpload host s1 (net req)
    (r.1, Effect.fetch req :: r.2)

/-! ## The other handlers -/

/-- How `cameraRef.current.takePictureAsync` turns out. -/
inductive CameraOutcome where
  /-- The ref is not attached: `cameraRef.current` is `null`. -/
  | noCamera : CameraOutcome
  /-- The promise rejected. -/
  | failed : CameraOutcome
  /-- The promise resolved; `uri` is `photo?.uri` (`none` when missing). -/
  | photo (uri : Option JSString) : CameraOutcome

/-- The handler `takePicture`. -/
def takePicture (s : ScreenState) : CameraOutcome → ScreenState × List Effect
  | CameraOutcome.noCamera => (s, [])
  | CameraOutcome.failed =>
    (s, [Effect.alert (lit "Error") (JSValue.str (lit "Failed to take picture")) []])
  | CameraOutcome.photo uri =>
    ({ s with capturedImage := if truthy uri then uri else none }, [])

/-- How the two awaited image-picker calls of `pickImage` turn out. -/
inductive PickerOutcome where
  /-- Permission status other than `granted`. -/
  | denied : PickerOutcome
  /-- The picker was cancelled (`result.canceled`). -/
  | canceled : PickerOutcome
  /-- An asset was chosen; `uri` is `result.assets[0].uri`. -/
  | asset (uri : JSString) : PickerOutcome

/-- The handler `pickImage`. -/
def pickImage (s : ScreenState) : PickerOutcome → ScreenState × List Effect
  | PickerOutcome.denied =>
    (s, [Effect.alert (lit "Permission needed")
      (JSValue.str (lit "Sorry, we need camera roll permissions!")) []])
  | PickerOutcome.canceled => (s, [])
  | PickerOutcome.asset uri => ({ s with capturedImage := some uri }, [])

/-- The handler `handleRetake`. -/
def handleRetake (s : ScreenState) : ScreenState := { s with capturedImage := none }

/-- The handler `toggleFlash`. -/
def toggleFlash (s : ScreenState) : ScreenState :=
  { s with flash := if s.flash = lit "off" then lit "on" else lit "off" }

/-- The handler `toggleCameraType`. -/
def toggleCameraType (s : ScreenState) : ScreenState :=
  { s with facing := if s.facing = lit "back" then lit "front" else lit "back" }

/-- The callback `() => setModalVisible(false)` shared by the close icon, the Done
button and `onRequestClose`. -/
def dismissModal (s : ScreenState) : ScreenState := { s with modalVisible := false }

/-- The helper `getSeverityColor`; `none` is an absent (`null`/`undefined`) severity,
for which `severity?.toUpperCase()` is `undefined` and the `default` arm is taken. -/
def getSeverityColor (host : Host) (severity : Option JSString) : JSString :=
  match severity with
  | none => lit "#999"
  | some s =>
    if host.toUpperCase s = lit "HIGH" then lit "#D32F2F"
    else if host.toUpperCase s = lit "MEDIUM" then lit "#F57C00"
    else if host.toUpperCase s = lit "LOW" then lit "#388E3C"
    else lit "#999"

/-! ## The render branches and the event loop -/

/-- The pressable elements of the screen. -/
inductive Control where
  | retake : Control
  | usePhoto : Control
  | toggleFlash : Control
  | toggleCameraType : Control
  | gallery : Control
  | shutter : Control
  | modalRequestClose : Control
  | modalClose : Control
  | modalDone : Control
  deriving DecidableEq

/-- The controls the user can operate in the tree rendered for `s`, on a mounted
screen (whether the render of `s` returns at all is `screenRenders`).
* Lines 180–209: with an image held the preview is returned; it carries the Retake
  and Use Photo buttons unless `isUploading`, in which case only the loader is shown.
* Lines 212–324: otherwise the camera view and the `Modal` are returned. A visible
  `Modal` is presented above the enclosing view and takes all input, so the camera
  controls are operable only while `modalVisible` is false. -/
def controls (s : ScreenState) : List Control :=
  if truthy s.capturedImage then
    if s.isUploading then [] else [Control.retake, Control.usePhoto]
  else if s.modalVisible then
    [Control.modalRequestClose, Control.modalClose, Control.modalDone]
  else
    [Control.toggleFlash, Control.toggleCameraType, Control.gallery, Control.shutter]

/-- The screen together with the upload requests that have not settled yet. -/
structure Sys where
  ui : ScreenState
  inFlight : List Request

/-- The screen as first mounted. -/
def initialSys : Sys := { ui := initialState, inFlight := [] }

/-- What can happen to a mounted screen: a press on a control (with the outcome of
the awaited device call, or the session token read by the handler) or the settling
of the oldest request in flight. -/
inductive Event where
  | toggleFlash : Event
  | toggleCameraType : Event
  | shutter (outcome : CameraOutcome) : Event
  | gallery (outcome : PickerOutcome) : Event
  | retake : Event
  | usePhoto (userToken : JSString) : Event
  | settled (outcome : FetchOutcome) : Event
  | modalRequestClose : Event
  | modalClose : Event
  | modalDone : Event

/-- Run `f` on the screen when control `c` is operable; otherwise nothing happens. -/
def onPress (c : Control) (sys : Sys) (f : ScreenState → ScreenState) : Sys :=
  if c ∈ controls sys.ui then { sys with ui := f sys.ui } else sys

/-- One event of the event loop. -/
def step (host : Host) (sys : Sys) : Event → Sys
  | Event.toggleFlash => onPress Control.toggleFlash sys toggleFlash
  | Event.toggleCameraType => onPress Control.toggleCameraType sys toggleCameraType
  | Event.shutter outcome => onPress Control.shutter sys (fun s => (takePicture s outcome).1)
  | Event.gallery outcome => onPress Control.gallery sys (fun s => (pickImage s outcome).1)
  | Event.retake => onPress Control.retake sys handleRetake
  | Event.usePhoto userToken =>
    if Control.usePhoto ∈ controls sys.ui then
      match startUpload host userToken sys.ui with
      | none => sys
      | some (s1, req) => { ui := s1, inFlight := sys.inFlight ++ [req] }
    else sys
  | Event.settled outcome =>
    match sys.inFlight with
    | [] => sys
    | _ :: rest => { ui := (settleUpload host sys.ui outcome).1, inFlight := rest }
  | Event.modalRequestClose => onPress Control.modalRequestClose sys dismissModal
  | Event.modalClose => onPress Control.modalClose sys dismissModal
  | Event.modalDone => onPress Control.modalDone sys dismissModal

/-- The screen after a sequence of events, starting from the first mount. -/
def run (host : Host) (events : List Event) : Sys :=
  events.foldl (step host) initialSys

/-- The requests among a list of effects. -/
def requestsOf : List Effect → List Request
  | [] => []
  | Effect.fetch req :: rest => req :: requestsOf rest
  | Effect.alert _ _ _ :: rest => requestsOf rest

/-- A state the event loop reaches from the first mount. -/
def Reachable (host : Host) (sys : Sys) : Prop := ∃ events, run host events = sys

/-- A failed upload attempt: the request was rejected before any response, or the
body is not JSON, or the status is outside 200–299 (401 included). -/
def uploadFailed (host : Host) : FetchOutcome → Bool
  | FetchOutcome.rejected _ => true
  | FetchOutcome.response status text => (host.jsonParse text).isNone || !responseOk status

/-! ## The result section of the modal (lines 264–308) -/

/-- A `TypeError` raised by an expression that no `try` block of the caller inspects:
a property read on `null`/`undefined`, or a call of something that is not a function. -/
inductive JSTypeError where
  | nullRead (key : JSString) : JSTypeError
  | notCallable (name : JSString) : JSTypeError

/-- Property read `v.key` for a data key, as `getProp`, recording only the kind of
error. -/
def readProp (v : JSValue) (key : JSString) : Except JSTypeError JSValue :=
  match v with
  | JSValue.null => Except.error (JSTypeError.nullRead key)
  | JSValue.undefined => Except.error (JSTypeError.nullRead key)
  | JSValue.obj fields => Except.ok (lookupField key fields)
  | _ => Except.ok JSValue.undefined

/-- Optional read `v?.key` for a data key: `undefined` when `v` is `null`/`undefined`. -/
def readOpt (v : JSValue) (key : JSString) : JSValue :=
  match v with
  | JSValue.obj fields => lookupField key fields
  | _ => JSValue.undefined

/-- The JSX child `v && <element>`: the element when `v` is truthy, otherwise the falsy
value `v` itself. -/
inductive Guarded (α : Type) where
  | element (e : α) : Guarded α
  | value (v : JSValue) : Guarded α

/-- The expression `v && e`. -/
def guardBy {α : Type} (v : JSValue) (e : α) : Guarded α :=
  if v.truthy then Guarded.element e else Guarded.value v

/-- One treatment card (lines 291–304): its `key`, the icon name and colour, the title
and description children, and the guarded Arabic description (the child of its `Text`
when shown). -/
structure TreatmentCard where
  key : JSValue
  iconName : JSString
  iconColor : JSString
  titleEn : JSValue
  descriptionEn : JSValue
  descriptionAr : Guarded JSValue

/-- The callback of `details?.map((item, index) => ...)`. -/
def treatmentCard (item : JSValue) (index : Nat) : Except JSTypeError TreatmentCard := do
  let id ← readProp item (lit "id")
  let isChemical ← readProp item (lit "isChemical")
  let titleEn ← readProp item (lit "titleEn")
  let descriptionEn ← readProp item (lit "descriptionEn")
  let descriptionAr ← readProp item (lit "descriptionAr")
  pure { key := id.or (JSValue.num (Int.ofNat index) 0)
         iconName := if isChemical.truthy then lit "flask" else lit "leaf"
         iconColor := if isChemical.truthy then lit "#D32F2F" else lit "#388E3C"
         titleEn := titleEn
         descriptionEn := descriptionEn
         descriptionAr := guardBy descriptionAr descriptionAr }

/-- The method `Array.prototype.map` with the card callback, from position `index`. -/
def mapCards : List JSValue → Nat → Except JSTypeError (List TreatmentCard)
  | [], _ => Except.ok []
  | item :: rest, index =>
    match treatmentCard item index with
    | Except.error e => Except.error e
    | Except.ok card =>
      match mapCards rest (index + 1) with
      | Except.error e => Except.error e
      | Except.ok cards => Except.ok (card :: cards)

/-- The expression `details?.map(...)`: `none` is the `undefined` obtained for a
`null`/`undefined` `details` (nothing is rendered); a value that is not an array has
no `map` method and the call throws. -/
def treatmentCards (details : JSValue) : Except JSTypeError (Option (List TreatmentCard)) :=
  match details with
  | JSValue.undefined => Except.ok none
  | JSValue.null => Except.ok none
  | JSValue.arr items =>
    match mapCards items 0 with
    | Except.error e => Except.error e
    | Except.ok cards => Except.ok (some cards)
  | _ => Except.error (JSTypeError.notCallable (lit "map"))

/-- The call `getSeverityColor(severity)` on an arbitrary value: `severity?.toUpperCase()`
is `undefined` for `null`/`undefined`, the upper-cased text for a string, and a call of
a missing method for anything else. -/
def severityColor (host : Host) (severity : JSValue) : Except JSTypeError JSString :=
  match severity with
  | JSValue.undefined => Except.ok (getSeverityColor host none)
  | JSValue.null => Except.ok (getSeverityColor host none)
  | JSValue.str s => Except.ok (getSeverityColor host (some s))
  | _ => Except.error (JSTypeError.notCallable (lit "toUpperCase"))

/-- Whether an object has an own property `key`. -/
def hasField (key : JSString) (fields : List (JSString × JSValue)) : Bool :=
  fields.any (fun kv => decide (kv.1 = key))

mutual
/-- Whether converting a parsed value to a primitive (`v * 100`, `'' + v`) returns.
A parsed object has no callable own property, so an own `toString` hides
`Object.prototype.toString` and the conversion throws a `TypeError`; the conversion
of an array joins the conversions of its items. -/
def coercible : JSValue → Bool
  | JSValue.obj fields => !hasField (lit "toString") fields
  | JSValue.arr items => coercibleAll items
  | _ => true
/-- Every item of an array can be converted to a primitive. -/
def coercibleAll : List JSValue → Bool
  | [] => true
  | item :: rest => coercible item && coercibleAll rest
end

mutual
/-- Whether React accepts a value as a child of a `Text`: text, numbers, `null`,
`undefined` and booleans are accepted, an array is accepted when its items are, and
a plain object is rejected (`Objects are not valid as a React child`). -/
def validChild : JSValue → Bool
  | JSValue.obj _ => false
  | JSValue.arr items => validChildren items
  | _ => true
/-- React accepts every item of an array of children. -/
def validChildren : List JSValue → Bool
  | [] => true
  | item :: rest => validChild item && validChildren rest
end

/-- Why a render of the result section fails. -/
inductive RenderError where
  /-- A `TypeError` of a property read or of a call of a missing method. -/
  | thrown (e : JSTypeError) : RenderError
  /-- The `TypeError` of a conversion to a primitive that cannot be done. -/
  | notPrimitive : RenderError
  /-- React rejects a child: a plain object inside a `Text`, or a number or text
  placed directly inside a `View`. -/
  | rejectedChild : RenderError

/-- A read or call made while the element tree is built. -/
def built {α : Type} (r : Except JSTypeError α) : Except RenderError α :=
  match r with
  | Except.error e => Except.error (RenderError.thrown e)
  | Except.ok a => Except.ok a

/-- The `key` of every card can be converted to text, as element creation does. -/
def keysCoerce : Option (List TreatmentCard) → Bool
  | none => true
  | some cards => cards.all (fun card => coercible card.key)

/-- The data-dependent parts of the `ScrollView` of the modal. -/
structure ResultView where
  imageUri : JSValue
  nameEn : JSValue
  nameAr : JSValue
  badgeColor : JSString
  badgeText : JSValue
  confidence : JSString
  cards : Option (List TreatmentCard)

/-- The JSX child `scanResult && (<ScrollView> ... </ScrollView>)` as the component
function builds it on every render of the camera branch, whether or not the modal is
visible: the property reads, the call of `getSeverityColor`, the conversion in
`Math.round(confidence * 100)` and the conversion of the card keys. `percent v` is the
text of `Math.round(v * 100)` for a `v` that converts. Which of several failures is
met first is not tracked for the card keys. -/
def resultSection (host : Host) (percent : JSValue → JSString) (scanResult : JSValue) :
    Except RenderError (Guarded ResultView) :=
  if scanResult.truthy then do
    let image ← built (readProp scanResult (lit "image"))
    let predictionA ← built (readProp scanResult (lit "prediction"))
    let diseaseA ← built (readProp predictionA (lit "disease"))
    let nameEn ← built (readProp diseaseA (lit "nameEn"))
    let nameAr ← built (readProp diseaseA (lit "nameAr"))
    let severity ← built (readProp diseaseA (lit "severity"))
    let badgeColor ← built (severityColor host severity)
    let confidence ← built (readProp predictionA (lit "confidence"))
    if coercible confidence then do
      let details ← built (readProp predictionA (lit "details"))
      let cards ← built (treatmentCards details)
      if keysCoerce cards then
        pure (Guarded.element
          { imageUri := readOpt image (lit "url")
            nameEn := nameEn
            nameAr := nameAr
            badgeColor := badgeColor
            badgeText := severity
            confidence := percent confidence
            cards := cards })
      else Except.error RenderError.notPrimitive
    else Except.error RenderError.notPrimitive
  else
    pure (Guarded.value scanResult)

/-- Whether the falsy value left by `v && <element>` is counted as an accepted child
of a `View`: `null`, `undefined` and `false` render nothing; the number `0` is text
outside a `Text` and is rejected; the empty text is ignored by React 18 and was
rejected before, and is not counted as accepted, so that nothing is asserted for it. -/
def bareChildOk : JSValue → Bool
  | JSValue.num _ _ => false
  | JSValue.str _ => false
  | _ => true

/-- React accepts the children of one treatment card. -/
def cardMounts (card : TreatmentCard) : Bool :=
  validChild card.titleEn && validChild card.descriptionEn &&
    (match card.descriptionAr with
     | Guarded.element v => validChild v
     | Guarded.value v => bareChildOk v)

/-- React accepts the children of the built result section (checked when the modal
is visible, since a hidden `Modal` renders none of its children). -/
def sectionMounts : Guarded ResultView → Bool
  | Guarded.value v => bareChildOk v
  | Guarded.element view =>
    validChild view.nameEn && validChild view.nameAr && validChild view.badgeText &&
      (match view.cards with
       | none => true
       | some cards => cards.all cardMounts)

/-- The result section as shown in the visible modal: built, then accepted by React. -/
def renderResult (host : Host) (percent : JSValue → JSString) (scanResult : JSValue) :
    Except RenderError (Guarded ResultView) :=
  match resultSection host percent scanResult with
  | Except.error e => Except.error e
  | Except.ok tree =>
    if sectionMounts tree then Except.ok tree else Except.error RenderError.rejectedChild

/-- Whether the render of `CameraScreen` for state `s` returns. The preview branch
(lines 180–209) shows only the held image. The camera branch (lines 212–324) builds
the result section, and React checks its children when the modal is visible. -/
def screenRenders (host : Host) (percent : JSValue → JSString) (s : ScreenState) : Bool :=
  if truthy s.capturedImage then true
  else
    match resultSection host percent s.scanResult with
    | Except.error _ => false
    | Except.ok tree => if s.modalVisible then sectionMounts tree else true

/-! ## `handleLogin` of `app/index.js` -/

/-- The `useState` fields of `LoginScreen`. -/
structure LoginState where
  email : JSString
  password : JSString
  isLoading : Bool
  errorMessage : JSValue

/-- What the login handler takes from outside: `String.prototype.toLowerCase` and
`API_URLS.LOGIN`. -/
structure LoginEnv where
  toLowerCase : JSString → JSString
  loginUrl : JSString

/-- The arguments of the login `fetch`; `body` is the object given to `JSON.stringify`. -/
structure LoginRequest where
  url : JSString
  method : JSString
  headers : List (JSString × JSString)
  body : JSValue

/-- Side effects of `handleLogin`, in program order. -/
inductive LoginEffect where
  | fetch (req : LoginRequest) : LoginEffect
  | signIn (token : JSValue) : LoginEffect

/-- How the awaited `fetch(...)` / `response.json()` pair settles. -/
inductive LoginOutcome where
  /-- One of the two promises rejected (no response, or a body that is not JSON). -/
  | failed : LoginOutcome
  /-- A response arrived: its `status` and the value `response.json()` resolved to. -/
  | response (status : Nat) (data : JSValue) : LoginOutcome

/-- Line 47: `data.data?.token?.access || data.token || data.accessToken`. -/
def loginToken (data : JSValue) : Except JSTypeError JSValue := do
  let inner ← readProp data (lit "data")
  let access := readOpt (readOpt inner (lit "token")) (lit "access")
  if access.truthy then pure access
  else do
    let token ← readProp data (lit "token")
    if token.truthy then pure token
    else readProp data (lit "accessToken")

/-- Lines 38–42: the login request. -/
def loginRequest (env : LoginEnv) (s : LoginState) : LoginRequest :=
  { url := env.loginUrl
    method := lit "POST"
    headers := [(lit "Content-Type", lit "application/json")]
    body := JSValue.obj [(lit "email", JSValue.str (env.toLowerCase s.email)),
                         (lit "password", JSValue.str s.password)] }

/-- The `catch` and `finally` clauses of `handleLogin`, from the state `s1` reached
before the `try` block. -/
def loginCaught (s1 : LoginState) : LoginState :=
  { s1 with errorMessage := JSValue.str
              (lit "Unable to connect to server. Check your internet.")
            isLoading := false }

/-- The handler `handleLogin` run to completion against a network that settles the
request with `net req`: final state and effects in program order. -/
def handleLogin (env : LoginEnv) (net : LoginRequest → LoginOutcome) (s : LoginState) :
    LoginState × List LoginEffect :=
  if s.email.isEmpty || s.password.isEmpty then
    ({ s with errorMessage := JSValue.str (lit "Please fill in all fields") }, [])
  else
    let s1 : LoginState := { s with errorMessage := JSValue.str (lit ""), isLoading := true }
    let req := loginRequest env s
    match net req with
    | LoginOutcome.failed => (loginCaught s1, [LoginEffect.fetch req])
    | LoginOutcome.response status data =>
      if responseOk status then
        match loginToken data with
        | Except.error _ => (loginCaught s1, [LoginEffect.fetch req])
        | Except.ok token =>
          if token.truthy then
            ({ s1 with isLoading := false }, [LoginEffect.fetch req, LoginEffect.signIn token])
          else
            ({ s1 with errorMessage := JSValue.str
                         (lit "Login successful but no token received.")
                       isLoading := false },
             [LoginEffect.fetch req])
      else
        match readProp data (lit "message") with
        | Except.error _ => (loginCaught s1, [LoginEffect.fetch req])
        | Except.ok message =>
          ({ s1 with errorMessage :=
                       message.or (JSValue.str (lit "Login failed. Please try again."))
                     isLoading := false },
           [LoginEffect.fetch req])

/-- The tokens passed to `signIn` among a list of effects. -/
def signInCalls : List LoginEffect → List JSValue
  | [] => []
  | LoginEffect.fetch _ :: rest => signInCalls rest
  | LoginEffect.signIn token :: rest => token :: signInCalls rest

/-- One event on a mounted screen: `none` when the render of the new state throws,
which unmounts the screen. -/
def stepMounted (host : Host) (percent : JSValue → JSString) (sys : Sys) (e : Event) :
    Option Sys :=
  if screenRenders host percent (step host sys e).ui then some (step host sys e) else none

/-- A sequence of events from `sys`, as long as the screen stays mounted. -/
def runFrom (host : Host) (percent : JSValue → JSString) : Sys → List Event → Option Sys
  | sys, [] => some sys
  | sys, e :: rest =>
    match stepMounted host percent sys e with
    | none => none
    | some next => runFrom host percent next rest

/-- The screen after a sequence of events from the first mount, `none` once a render
has thrown. -/
def runMounted (host : Host) (percent : JSValue → JSString) (events : List Event) :
    Option Sys :=
  runFrom host percent initialSys events

/-- A state reached from the first mount with every render on the way returning. -/
def ReachableMounted (host : Host) (percent : JSValue → JSString) (sys : Sys) : Prop :=
  ∃ events, runMounted host percent events = some sys

/-- An optional text field: absent, `null` or text. -/
def textOrAbsent : JSValue → Bool
  | JSValue.undefined => true
  | JSValue.null => true
  | JSValue.str _ => true
  | _ => false

/-- An optional text field that is shown only when given: absent, `null` or
non-empty text. -/
def shownTextOrAbsent : JSValue → Bool
  | JSValue.undefined => true
  | JSValue.null => true
  | JSValue.str (_ :: _) => true
  | _ => false

/-- An optional number field: absent, `null` or a number. -/
def numberOrAbsent : JSValue → Bool
  | JSValue.undefined => true
  | JSValue.null => true
  | JSValue.num _ _ => true
  | _ => false

/-- An optional identifier: absent, `null`, a number or text. -/
def idOrAbsent : JSValue → Bool
  | JSValue.undefined => true
  | JSValue.null => true
  | JSValue.num _ _ => true
  | JSValue.str _ => true
  | _ => false

/-- A treatment item record: an object whose `id`, `titleEn`, `descriptionEn` and
`descriptionAr` are absent or of their type (`isChemical` is only tested for
truthiness and may be anything). -/
def itemShape : JSValue → Bool
  | JSValue.obj fields =>
    idOrAbsent (lookupField (lit "id") fields)
      && textOrAbsent (lookupField (lit "titleEn") fields)
      && textOrAbsent (lookupField (lit "descriptionEn") fields)
      && shownTextOrAbsent (lookupField (lit "descriptionAr") fields)
  | _ => false

/-- While the modal is visible, `scanResult` is what the read `data.data` gave for
some body text the host parsed. -/
def ShownFromResponse (host : Host) (s : ScreenState) : Prop :=
  s.modalVisible = true →
    ∃ t d, host.jsonParse t = some d ∧ getProp host d (lit "data") = Except.ok s.scanResult

/-! ## A concrete host for evaluating the definitions -/

/-- ASCII upper-casing, the restriction of `toUpperCase` to ASCII text. -/
def asciiUpper (s : JSString) : JSString :=
  s.map (fun c => if 97 ≤ c ∧ c ≤ 122 then c - 32 else c)

/-- A toy parser that knows three texts: `null`, an object with a `data` field and
an object with a `message` field; every other text is a syntax error. -/
def sampleParse (t : JSString) : Option JSValue :=
  if t = lit "null" then some JSValue.null
  else if t = lit "\x7b\"data\":\x7b\x7d\x7d" then
    some (JSValue.obj [(lit "data", JSValue.obj [])])
  else if t = lit "\x7b\"message\":\"Unauthorized\"\x7d" then
    some (JSValue.obj [(lit "message", JSValue.str (lit "Unauthorized"))])
  else none

/-- An Android host with the toy parser. -/
def sampleHost : Host :=
  { os := lit "android"
    jsonParse := sampleParse
    toUpperCase := asciiUpper
    nullReadMessage := fun key => lit "Cannot read property " ++ key ++ lit " of null"
    uploadScanUrl := lit "https://example.test/scan" }

/-- A reviewing state: the image `/tmp/a.jpg` is held, nothing else has happened. -/
def sampleReviewing : ScreenState :=
  { initialState with capturedImage := some (lit "/tmp/a.jpg") }

/-- The same with an upload marked as in flight. -/
def sampleUploading : ScreenState := { sampleReviewing with isUploading := true }

/-- Pick `/tmp/a.jpg`, confirm, and receive a 200 with an empty `data` object: the
result modal is shown. -/
def shownEvents : List Event :=
  [Event.gallery (PickerOutcome.asset (lit "/tmp/a.jpg")),
   Event.usePhoto (lit "tok"),
   Event.settled (FetchOutcome.response 200 (lit "\x7b\"data\":\x7b\x7d\x7d"))]

/-- The sample host with a parser that reads every text as the value `d`. -/
def hostReading (d : JSValue) : Host := { sampleHost with jsonParse := fun _ => some d }

/-- Pick `/tmp/a.jpg`, confirm, and receive a 200 whose body is settled by the host. -/
def uploadEvents (status : Nat) : List Event :=
  [Event.gallery (PickerOutcome.asset (lit "/tmp/a.jpg")),
   Event.usePhoto (lit "tok"),
   Event.settled (FetchOutcome.response status [])]

/-- A treatment item whose Arabic description is present but empty. -/
def emptyArabicItem : List (JSString × JSValue) :=
  [(lit "id", JSValue.num 7 0),
   (lit "isChemical", JSValue.bool true),
   (lit "titleEn", JSValue.str (lit "Apply fungicide")),
   (lit "descriptionEn", JSValue.str (lit "Spray weekly")),
   (lit "descriptionAr", JSValue.str [])]

/-- A treatment item without `id` and without Arabic description. -/
def plainItem : List (JSString × JSValue) :=
  [(lit "isChemical", JSValue.bool false),
   (lit "titleEn", JSValue.str (lit "Prune leaves")),
   (lit "descriptionEn", JSValue.str (lit "Remove infected leaves"))]

/-- A result with the required `prediction.disease` records and no optional field. -/
def bareResult : JSValue :=
  JSValue.obj [(lit "prediction", JSValue.obj
    [(lit "disease", JSValue.obj [(lit "nameEn", JSValue.str (lit "Leaf Rust")),
                                  (lit "nameAr", JSValue.str (lit "Sada"))]),
     (lit "confidence", JSValue.num 87 (-2))])]

/-- A result given by its `disease` fields, its `confidence` and its `details`. -/
def resultWith (disease : List (JSString × JSValue)) (confidence details : JSValue) :
    JSValue :=
  JSValue.obj [(lit "prediction", JSValue.obj
    [(lit "disease", JSValue.obj disease),
     (lit "confidence", confidence),
     (lit "details", details)])]

/-- The sample host reading every body as an object whose `data` is `bareResult`. -/
def resultHost : Host := hostReading (JSValue.obj [(lit "data", bareResult)])

/-- After the result was shown: press Done, then pick `/tmp/b.jpg` for review. -/
def secondReviewEvents : List Event :=
  uploadEvents 200 ++ [Event.modalDone, Event.gallery (PickerOutcome.asset (lit "/tmp/b.jpg"))]

/-- A stand-in for the text of `Math.round(v * 100)`: exact for a literal with
exponent `-2`, `NaN` otherwise. -/
def samplePercent : JSValue → JSString
  | JSValue.num mantissa (-2) => lit (toString mantissa)
  | _ => lit "NaN"

/-- A login environment with the identity as lower-casing. -/
def sampleLoginEnv : LoginEnv :=
  { toLowerCase := fun x => x, loginUrl := lit "https://example.test/login" }

/-- A filled-in login form. -/
def sampleLogin : LoginState :=
  { email := lit "a@b.c", password := lit "pw", isLoading := false,
    errorMessage := JSValue.str (lit "") }

/-! ## Basic facts about the handlers -/

theorem lit_serverError : lit "Server Error (" =
    [83, 101, 114, 118, 101, 114, 32, 69, 114, 114, 111, 114, 32, 40] := by decide

theorem startUpload_held (host : Host) (userToken img : JSString) (s : ScreenState)
    (himg : s.capturedImage = some img) (hne : img ≠ []) :
    startUpload host userToken s
      = some ({ s with isUploading := true }, buildRequest host userToken img) := by
  cases img with
  | nil => exact absurd rfl hne
  | cons c cs => simp [startUpload, himg]

theorem handleUsePhoto_held (host : Host) (userToken img : JSString)
    (net : Request → FetchOutcome) (s : ScreenState)
    (himg : s.capturedImage = some img) (hne : img ≠ []) :
    handleUsePhoto host userToken net s
      = ((settleUpload host { s with isUploading := true }
            (net (buildRequest host userToken img))).1,
         Effect.fetch (buildRequest host userToken img)
           :: (settleUpload host { s with isUploading := true }
                (net (buildRequest host userToken img))).2) := by
  simp [handleUsePhoto, startUpload_held host userToken img s himg hne]

theorem afterFetch_unparsed (host : Host) (s : ScreenState) (status : Nat) (t : JSString)
    (hp : host.jsonParse t = none) :
    afterFetch host s (FetchOutcome.response status t)
      = Except.error ⟨some (lit "Server Error (" ++ numToString status ++ lit "): "
          ++ t.take 100)⟩ := by
  simp [afterFetch, hp]

theorem afterFetch_rejected_status (host : Host) (s : ScreenState) (status : Nat)
    (t : JSString) (d : JSValue) (hp : host.jsonParse t = some d)
    (hnok : responseOk status = false) :
    afterFetch host s (FetchOutcome.response status t)
      = if status = 401 then
          Except.ok (s, [Effect.alert (lit "Session Expired")
            (JSValue.str (lit "Please log in again."))
            [{ text := lit "OK", onPress := [ButtonAction.signOut] }]])
        else
          match getProp host d (lit "message") with
          | Except.error e => Except.error e
          | Except.ok message => Except.ok (s, [Effect.alert (lit "Upload Failed")
              (message.or (JSValue.str (lit "Something went wrong."))) []]) := by
  simp [afterFetch, hp, hnok]

theorem settleUpload_failed (host : Host) (s : ScreenState) (outcome : FetchOutcome)
    (hfail : uploadFailed host outcome = true) :
    ∃ title message buttons,
      settleUpload host s outcome
        = ({ s with isUploading := false }, [Effect.alert title message buttons]) := by
  cases outcome with
  | rejected e => exact ⟨_, _, _, rfl⟩
  | response status t =>
    cases hp : host.jsonParse t with
    | none =>
      simp only [settleUpload, afterFetch_unparsed host s status t hp]
      exact ⟨_, _, _, rfl⟩
    | some d =>
      have hnok : responseOk status = false := by
        simpa [uploadFailed, hp] using hfail
      by_cases h401 : status = 401
      · simp only [settleUpload, afterFetch_rejected_status host s status t d hp hnok,
          if_pos h401]
        exact ⟨_, _, _, rfl⟩
      · cases hg : getProp host d (lit "message") with
        | error e =>
          simp only [settleUpload, afterFetch_rejected_status host s status t d hp hnok,
            if_neg h401, hg]
          exact ⟨_, _, _, rfl⟩
        | ok m =>
          simp only [settleUpload, afterFetch_rejected_status host s status t d hp hnok,
            if_neg h401, hg]
          exact ⟨_, _, _, rfl⟩

theorem settleUpload_state (host : Host) (s : ScreenState) (outcome : FetchOutcome) :
    (settleUpload host s outcome).1 = { s with isUploading := false }
    ∨ ∃ result, (settleUpload host s outcome).1
        = { s with scanResult := result, modalVisible := true, capturedImage := none,
                   isUploading := false } := by
  cases outcome with
  | rejected e => exact Or.inl rfl
  | response status t =>
    cases hp : host.jsonParse t with
    | none =>
      left
      simp only [settleUpload, afterFetch_unparsed host s status t hp]
    | some d =>
      cases hok : responseOk status with
      | false =>
        left
        obtain ⟨_, _, _, h⟩ := settleUpload_failed host s (FetchOutcome.response status t)
          (by simp [uploadFailed, hok])
        rw [h]
      | true =>
        cases hg : getProp host d (lit "data") with
        | error e =>
          left
          simp [settleUpload, afterFetch, hp, hok, hg]
        | ok r =>
          right
          exact ⟨r, by simp [settleUpload, afterFetch, hp, hok, hg]⟩

theorem settleUpload_no_request (host : Host) (s : ScreenState) (outcome : FetchOutcome) :
    requestsOf (settleUpload host s outcome).2 = [] := by
  cases hf : uploadFailed host outcome with
  | true =>
    obtain ⟨_, _, _, h⟩ := settleUpload_failed host s outcome hf
    rw [h]; rfl
  | false =>
    cases outcome with
    | rejected e => simp [uploadFailed] at hf
    | response status t =>
      cases hp : host.jsonParse t with
      | none => simp [uploadFailed, hp] at hf
      | some d =>
        have hok : responseOk status = true := by simpa [uploadFailed, hp] using hf
        cases hg : getProp host d (lit "data") with
        | error e => simp [settleUpload, afterFetch, hp, hok, hg, requestsOf]
        | ok r => simp [settleUpload, afterFetch, hp, hok, hg, requestsOf]

theorem asciiUpper_idem (x : JSString) : asciiUpper (asciiUpper x) = asciiUpper x := by
  unfold asciiUpper
  rw [List.map_map]
  apply List.map_congr_left
  intro c _
  simp only [Function.comp]
  split_ifs <;> omega

/-! ## Invariant of the event loop -/

/-- What holds of every state the event loop reaches. -/
structure Inv (sys : Sys) : Prop where
  atMostOne : sys.inFlight.length ≤ 1
  uploading_iff : sys.ui.isUploading = true ↔ sys.inFlight ≠ []
  uploading_image : sys.ui.isUploading = true → truthy sys.ui.capturedImage = true
  image_modal : truthy sys.ui.capturedImage = true → sys.ui.modalVisible = false
  modal_image : sys.ui.modalVisible = true → sys.ui.capturedImage = none

theorem mem_controls_preview (s : ScreenState) (c : Control)
    (hc : c = Control.retake ∨ c = Control.usePhoto) :
    c ∈ controls s ↔ truthy s.capturedImage = true ∧ s.isUploading = false := by
  rcases hc with rfl | rfl <;>
    cases h1 : truthy s.capturedImage <;> cases h2 : s.isUploading <;>
    cases h3 : s.modalVisible <;> simp [controls, h1, h2, h3]

theorem mem_controls_camera (s : ScreenState) (c : Control)
    (hc : c = Control.toggleFlash ∨ c = Control.toggleCameraType ∨ c = Control.gallery
      ∨ c = Control.shutter) :
    c ∈ controls s ↔ truthy s.capturedImage = false ∧ s.modalVisible = false := by
  rcases hc with rfl | rfl | rfl | rfl <;>
    cases h1 : truthy s.capturedImage <;> cases h2 : s.isUploading <;>
    cases h3 : s.modalVisible <;> simp [controls, h1, h2, h3]

theorem mem_controls_modal (s : ScreenState) (c : Control)
    (hc : c = Control.modalRequestClose ∨ c = Control.modalClose ∨ c = Control.modalDone) :
    c ∈ controls s ↔ truthy s.capturedImage = false ∧ s.modalVisible = true := by
  rcases hc with rfl | rfl | rfl <;>
    cases h1 : truthy s.capturedImage <;> cases h2 : s.isUploading <;>
    cases h3 : s.modalVisible <;> simp [controls, h1, h2, h3]

theorem truthy_eq_true_iff (x : Option JSString) :
    truthy x = true ↔ ∃ c cs, x = some (c :: cs) := by
  cases x with
  | none => simp [truthy]
  | some l => cases l <;> simp [truthy]

theorem inv_initial : Inv initialSys :=
  { atMostOne := by simp [initialSys]
    uploading_iff := by simp [initialSys, initialState]
    uploading_image := by simp [initialSys, initialState]
    image_modal := by simp [initialSys, initialState]
    modal_image := by simp [initialSys, initialState] }

theorem inv_dismiss (sys : Sys) (h : Inv sys) (c : Control) :
    Inv (onPress c sys dismissModal) := by
  unfold onPress
  split
  · exact { atMostOne := h.atMostOne
            uploading_iff := h.uploading_iff
            uploading_image := h.uploading_image
            image_modal := fun _ => rfl
            modal_image := fun hm => Bool.noConfusion hm }
  · exact h

theorem inv_camera (sys : Sys) (h : Inv sys) (c : Control) (f : ScreenState → ScreenState)
    (hc : c = Control.toggleFlash ∨ c = Control.toggleCameraType ∨ c = Control.gallery
      ∨ c = Control.shutter)
    (hup : ∀ s, (f s).isUploading = s.isUploading)
    (hmod : ∀ s, (f s).modalVisible = s.modalVisible) :
    Inv (onPress c sys f) := by
  unfold onPress
  split
  · rename_i hmem
    have hguard := (mem_controls_camera sys.ui c hc).1 hmem
    have hnot : sys.ui.isUploading = false := by
      cases hu : sys.ui.isUploading with
      | false => rfl
      | true => have := h.uploading_image hu; rw [hguard.1] at this; cases this
    exact { atMostOne := h.atMostOne
            uploading_iff := by
              show (f sys.ui).isUploading = true ↔ _
              rw [hup]; exact h.uploading_iff
            uploading_image := by
              intro hu
              have hu2 : (f sys.ui).isUploading = true := hu
              rw [hup, hnot] at hu2; cases hu2
            image_modal := by
              intro _
              show (f sys.ui).modalVisible = false
              rw [hmod]; exact hguard.2
            modal_image := by
              intro hm
              have hm2 : (f sys.ui).modalVisible = true := hm
              rw [hmod, hguard.2] at hm2; cases hm2 }
  · exact h

theorem inv_step (host : Host) (sys : Sys) (e : Event) (h : Inv sys) :
    Inv (step host sys e) := by
  cases e with
  | toggleFlash =>
    exact inv_camera sys h Control.toggleFlash _ (by simp) (fun _ => rfl) (fun _ => rfl)
  | toggleCameraType =>
    exact inv_camera sys h Control.toggleCameraType _ (by simp) (fun _ => rfl) (fun _ => rfl)
  | shutter outcome =>
    refine inv_camera sys h Control.shutter (fun s => (takePicture s outcome).1)
      (by simp) ?_ ?_ <;> intro s <;> cases outcome <;> rfl
  | gallery outcome =>
    refine inv_camera sys h Control.gallery (fun s => (pickImage s outcome).1)
      (by simp) ?_ ?_ <;> intro s <;> cases outcome <;> rfl
  | modalRequestClose => exact inv_dismiss sys h _
  | modalClose => exact inv_dismiss sys h _
  | modalDone => exact inv_dismiss sys h _
  | retake =>
    show Inv (onPress Control.retake sys handleRetake)
    unfold onPress
    split
    · rename_i hmem
      have hguard := (mem_controls_preview sys.ui _ (Or.inl rfl)).1 hmem
      exact { atMostOne := h.atMostOne
              uploading_iff := h.uploading_iff
              uploading_image := by
                intro hu
                have hu2 : sys.ui.isUploading = true := hu
                rw [hguard.2] at hu2; cases hu2
              image_modal := by
                intro hi
                have hi2 : truthy none = true := hi
                cases hi2
              modal_image := fun _ => rfl }
    · exact h
  | usePhoto userToken =>
    show Inv (if Control.usePhoto ∈ controls sys.ui then
      match startUpload host userToken sys.ui with
      | none => sys
      | some (s1, req) => { ui := s1, inFlight := sys.inFlight ++ [req] }
      else sys)
    split
    · rename_i hmem
      have hguard := (mem_controls_preview sys.ui _ (Or.inr rfl)).1 hmem
      obtain ⟨c, cs, himg⟩ := (truthy_eq_true_iff _).1 hguard.1
      have hempty : sys.inFlight = [] := by
        by_contra hne
        have := h.uploading_iff.2 hne
        rw [hguard.2] at this; cases this
      rw [startUpload_held host userToken (c :: cs) sys.ui himg (by simp)]
      exact { atMostOne := by simp [hempty]
              uploading_iff := by simp
              uploading_image := fun _ => hguard.1
              image_modal := h.image_modal
              modal_image := h.modal_image }
    · exact h
  | settled outcome =>
    show Inv (match sys.inFlight with
      | [] => sys
      | _ :: rest => { ui := (settleUpload host sys.ui outcome).1, inFlight := rest })
    cases hfl : sys.inFlight with
    | nil => exact h
    | cons r rest =>
      have hrest : rest = [] := by
        have := h.atMostOne
        rw [hfl] at this
        simpa using this
      have hup : sys.ui.isUploading = true := h.uploading_iff.2 (by simp [hfl])
      have himg := h.uploading_image hup
      have hmod := h.image_modal himg
      subst hrest
      rcases settleUpload_state host sys.ui outcome with hs | ⟨result, hs⟩
      · simp only [hs]
        exact { atMostOne := by simp
                uploading_iff := by simp
                uploading_image := by simp
                image_modal := fun _ => hmod
                modal_image := by
                  intro hm
                  have hm2 : sys.ui.modalVisible = true := hm
                  rw [hmod] at hm2; cases hm2 }
      · simp only [hs]
        exact { atMostOne := by simp
                uploading_iff := by simp
                uploading_image := by simp
                image_modal := by simp [truthy]
                modal_image := fun _ => rfl }

theorem inv_foldl (host : Host) (events : List Event) (sys : Sys) (h : Inv sys) :
    Inv (events.foldl (step host) sys) := by
  induction events generalizing sys with
  | nil => exact h
  | cons e rest ih => exact ih _ (inv_step host sys e h)

theorem inv_run (host : Host) (events : List Event) : Inv (run host events) :=
  inv_foldl host events initialSys inv_initial

/-! ## Facts about property reads and the card list -/

theorem getProp_of_ne (host : Host) (d : JSValue) (key : JSString)
    (hnull : d ≠ JSValue.null) (hundef : d ≠ JSValue.undefined) :
    getProp host d key = Except.ok (readOpt d key) := by
  cases d with
  | null => exact absurd rfl hnull
  | undefined => exact absurd rfl hundef
  | obj fields => rfl
  | bool b => rfl
  | num m e => rfl
  | str x => rfl
  | arr xs => rfl

theorem readProp_of_ne (d : JSValue) (key : JSString)
    (hnull : d ≠ JSValue.null) (hundef : d ≠ JSValue.undefined) :
    readProp d key = Except.ok (readOpt d key) := by
  cases d with
  | null => exact absurd rfl hnull
  | undefined => exact absurd rfl hundef
  | obj fields => rfl
  | bool b => rfl
  | num m e => rfl
  | str x => rfl
  | arr xs => rfl

theorem treatmentCard_of_ne (item : JSValue) (index : Nat)
    (hnull : item ≠ JSValue.null) (hundef : item ≠ JSValue.undefined) :
    treatmentCard item index = Except.ok
      { key := (readOpt item (lit "id")).or (JSValue.num (Int.ofNat index) 0)
        iconName := if (readOpt item (lit "isChemical")).truthy then lit "flask" else lit "leaf"
        iconColor :=
          if (readOpt item (lit "isChemical")).truthy then lit "#D32F2F" else lit "#388E3C"
        titleEn := readOpt item (lit "titleEn")
        descriptionEn := readOpt item (lit "descriptionEn")
        descriptionAr :=
          guardBy (readOpt item (lit "descriptionAr")) (readOpt item (lit "descriptionAr")) } := by
  simp only [treatmentCard, readProp_of_ne item _ hnull hundef]
  rfl

theorem mapCards_of_ne (items : List JSValue) (index : Nat)
    (hitems : ∀ item ∈ items, item ≠ JSValue.null ∧ item ≠ JSValue.undefined) :
    ∃ cards, mapCards items index = Except.ok cards
      ∧ List.Forall₂ (fun item card =>
          ∃ position, treatmentCard item position = Except.ok card) items cards := by
  induction items generalizing index with
  | nil => exact ⟨[], rfl, List.Forall₂.nil⟩
  | cons item rest ih =>
    obtain ⟨cards, hcards, hall⟩ :=
      ih (index + 1) (fun x hx => hitems x (List.mem_cons_of_mem _ hx))
    have hitem := hitems item (List.mem_cons_self _ _)
    have hcard := treatmentCard_of_ne item index hitem.1 hitem.2
    refine ⟨_ :: cards, ?_, List.Forall₂.cons ⟨index, hcard⟩ hall⟩
    simp only [mapCards, hcard, hcards]

/-! ## The mounted screen -/

theorem screenRenders_initial (host : Host) (percent : JSValue → JSString) :
    screenRenders host percent initialState = true := rfl

theorem screenRenders_camera (host : Host) (percent : JSValue → JSString) (s : ScreenState)
    (himg : truthy s.capturedImage = false)
    (h : screenRenders host percent s = true) :
    ∃ tree, resultSection host percent s.scanResult = Except.ok tree
      ∧ (s.modalVisible = true → sectionMounts tree = true) := by
  unfold screenRenders at h
  rw [himg] at h
  cases hr : resultSection host percent s.scanResult with
  | error e => rw [hr] at h; simp at h
  | ok tree =>
    rw [hr] at h
    refine ⟨tree, rfl, fun hm => ?_⟩
    simpa [hm] using h

theorem screenRenders_hidden (host : Host) (percent : JSValue → JSString) (s : ScreenState)
    (tree : Guarded ResultView)
    (hbuilt : resultSection host percent s.scanResult = Except.ok tree)
    (hmod : s.modalVisible = false) :
    screenRenders host percent s = true := by
  unfold screenRenders
  split
  · rfl
  · simp [hbuilt, hmod]

theorem onPress_scanResult (c : Control) (sys : Sys) (f : ScreenState → ScreenState)
    (hf : ∀ s, (f s).scanResult = s.scanResult) :
    (onPress c sys f).ui.scanResult = sys.ui.scanResult := by
  unfold onPress
  split
  · exact hf sys.ui
  · rfl

theorem step_scanResult (host : Host) (sys : Sys) (e : Event) :
    (step host sys e).ui.scanResult = sys.ui.scanResult
    ∨ (step host sys e).ui.capturedImage = none := by
  cases e with
  | toggleFlash => exact Or.inl (onPress_scanResult _ sys toggleFlash (fun _ => rfl))
  | toggleCameraType => exact Or.inl (onPress_scanResult _ sys toggleCameraType (fun _ => rfl))
  | shutter outcome =>
    exact Or.inl (onPress_scanResult _ sys (fun s => (takePicture s outcome).1)
      (fun _ => by cases outcome <;> rfl))
  | gallery outcome =>
    exact Or.inl (onPress_scanResult _ sys (fun s => (pickImage s outcome).1)
      (fun _ => by cases outcome <;> rfl))
  | retake => exact Or.inl (onPress_scanResult _ sys handleRetake (fun _ => rfl))
  | modalRequestClose => exact Or.inl (onPress_scanResult _ sys dismissModal (fun _ => rfl))
  | modalClose => exact Or.inl (onPress_scanResult _ sys dismissModal (fun _ => rfl))
  | modalDone => exact Or.inl (onPress_scanResult _ sys dismissModal (fun _ => rfl))
  | usePhoto userToken =>
    left
    show (if Control.usePhoto ∈ controls sys.ui then
      match startUpload host userToken sys.ui with
      | none => sys
      | some (s1, req) => { ui := s1, inFlight := sys.inFlight ++ [req] }
      else sys).ui.scanResult = _
    split
    · cases hc : sys.ui.capturedImage with
      | none => simp [startUpload, hc]
      | some l =>
        cases l with
        | nil => simp [startUpload, hc]
        | cons c cs => rw [startUpload_held host userToken (c :: cs) sys.ui hc (by simp)]
    · rfl
  | settled outcome =>
    show (match sys.inFlight with
      | [] => sys
      | _ :: rest => { ui := (settleUpload host sys.ui outcome).1, inFlight := rest }
      ).ui.scanResult = _ ∨ (match sys.inFlight with
      | [] => sys
      | _ :: rest => { ui := (settleUpload host sys.ui outcome).1, inFlight := rest }
      ).ui.capturedImage = none
    cases sys.inFlight with
    | nil => exact Or.inl rfl
    | cons r rest =>
      rcases settleUpload_state host sys.ui outcome with hs | ⟨result, hs⟩
      · left
        simp only [hs]
      · right
        simp only [hs]

theorem built_stepMounted (host : Host) (percent : JSValue → JSString) (sys next : Sys)
    (e : Event) (hstep : stepMounted host percent sys e = some next)
    (hbuilt : ∃ tree, resultSection host percent sys.ui.scanResult = Except.ok tree) :
    next = step host sys e ∧ screenRenders host percent next.ui = true
      ∧ ∃ tree, resultSection host percent next.ui.scanResult = Except.ok tree := by
  unfold stepMounted at hstep
  by_cases hr : screenRenders host percent (step host sys e).ui = true
  · rw [if_pos hr] at hstep
    cases hstep
    refine ⟨rfl, hr, ?_⟩
    rcases step_scanResult host sys e with hsame | hnone
    · rw [hsame]; exact hbuilt
    · obtain ⟨tree, ht, _⟩ := screenRenders_camera host percent _ (by rw [hnone]; rfl) hr
      exact ⟨tree, ht⟩
  · rw [if_neg hr] at hstep
    cases hstep

theorem runFrom_spec (host : Host) (percent : JSValue → JSString) (events : List Event) :
    ∀ sys final, runFrom host percent sys events = some final →
      screenRenders host percent sys.ui = true →
      (∃ tree, resultSection host percent sys.ui.scanResult = Except.ok tree) →
      events.foldl (step host) sys = final
        ∧ screenRenders host percent final.ui = true
        ∧ ∃ tree, resultSection host percent final.ui.scanResult = Except.ok tree := by
  induction events with
  | nil =>
    intro sys final h hr hb
    simp only [runFrom] at h
    cases h
    exact ⟨rfl, hr, hb⟩
  | cons e rest ih =>
    intro sys final h hr hb
    simp only [runFrom] at h
    cases hs : stepMounted host percent sys e with
    | none => rw [hs] at h; cases h
    | some next =>
      rw [hs] at h
      obtain ⟨hnext, hr2, hb2⟩ := built_stepMounted host percent sys next e hs hb
      have := ih next final h hr2 hb2
      rw [hnext] at this
      exact this

theorem reachableMounted_spec (host : Host) (percent : JSValue → JSString) (sys : Sys)
    (h : ReachableMounted host percent sys) :
    Reachable host sys ∧ screenRenders host percent sys.ui = true
      ∧ ∃ tree, resultSection host percent sys.ui.scanResult = Except.ok tree := by
  obtain ⟨events, hrun⟩ := h
  obtain ⟨h1, h2, h3⟩ := runFrom_spec host percent events initialSys sys hrun
    (screenRenders_initial host percent) ⟨_, rfl⟩
  exact ⟨⟨events, h1⟩, h2, h3⟩

/-! ## The decimal text of a status -/

theorem toDigitsCore_append : ∀ fuel n ds, n < fuel →
    Nat.toDigitsCore 10 fuel n ds = Nat.toDigitsCore 10 (n + 1) n [] ++ ds := by
  intro fuel
  induction fuel using Nat.strong_induction_on with
  | _ fuel ih =>
    intro n ds hlt
    cases fuel with
    | zero => omega
    | succ fuel =>
      by_cases h0 : n / 10 = 0
      · simp [Nat.toDigitsCore, h0]
      · have hdiv : n / 10 < n := Nat.div_lt_self (by omega) (by decide)
        have h1 : Nat.toDigitsCore 10 (fuel + 1) n ds
            = Nat.toDigitsCore 10 fuel (n / 10) (Nat.digitChar (n % 10) :: ds) := by
          simp [Nat.toDigitsCore, h0]
        have h2 : Nat.toDigitsCore 10 (n + 1) n []
            = Nat.toDigitsCore 10 n (n / 10) [Nat.digitChar (n % 10)] := by
          simp [Nat.toDigitsCore, h0]
        rw [h1, h2, ih fuel (by omega) (n / 10) _ (by omega),
          ih n (by omega) (n / 10) _ hdiv]
        simp

theorem digitChar_toNat (k : Nat) (hk : k < 10) : (Nat.digitChar k).toNat = 48 + k := by
  interval_cases k <;> rfl

theorem toDigits_unfold (n : Nat) :
    Nat.toDigits 10 n = if n < 10 then [Nat.digitChar n]
      else Nat.toDigits 10 (n / 10) ++ [Nat.digitChar (n % 10)] := by
  unfold Nat.toDigits
  by_cases h : n < 10
  · have h0 : n / 10 = 0 := by omega
    have hm : n % 10 = n := by omega
    simp [Nat.toDigitsCore, h0, h, hm]
  · have h0 : ¬ n / 10 = 0 := by omega
    have hdiv : n / 10 < n := Nat.div_lt_self (by omega) (by decide)
    have h2 : Nat.toDigitsCore 10 (n + 1) n []
        = Nat.toDigitsCore 10 n (n / 10) [Nat.digitChar (n % 10)] := by
      simp [Nat.toDigitsCore, h0]
    rw [h2, toDigitsCore_append n (n / 10) _ hdiv, if_neg h]

theorem numToString_unfold (n : Nat) :
    numToString n = if n < 10 then [48 + n] else numToString (n / 10) ++ [48 + n % 10] := by
  have key : ∀ m, numToString m = (Nat.toDigits 10 m).map Char.toNat := by
    intro m
    simp [numToString, lit, toString, Nat.repr, List.asString]
  rw [key, key, toDigits_unfold]
  by_cases h : n < 10
  · simp [h, digitChar_toNat n h]
  · simp [h, digitChar_toNat (n % 10) (Nat.mod_lt _ (by decide))]

/-! ## C1 — a body that is not JSON -/

/-- C1. When the body text `t` of a response with status `status` fails `JSON.parse`,
`handleUsePhoto` completes normally; its effects are the request followed by one
`Error` alert whose message is `Server Error (status): ` followed by the first
`min 100 (length t)` code units of `t`, a body portion of at most 100 code units.
The status text is the decimal numeral of `status`: the digit itself below ten,
otherwise the numeral of `status / 10` followed by the last digit. -/
theorem malformed_body_alert (host : Host) (userToken img : JSString) (s : ScreenState)
    (status : Nat) (t : JSString)
    (himg : s.capturedImage = some img) (hne : img ≠ [])
    (hparse : host.jsonParse t = none) :
    (handleUsePhoto host userToken (fun _ => FetchOutcome.response status t) s).2
      = [Effect.fetch (buildRequest host userToken img),
         Effect.alert (lit "Error")
           (JSValue.str (lit "Server Error (" ++ numToString status ++ lit "): "
              ++ t.take (min 100 t.length))) []]
    ∧ numToString status
      = (if status < 10 then [48 + status]
         else numToString (status / 10) ++ [48 + status % 10])
    ∧ (t.take (min 100 t.length)).length = min 100 t.length
    ∧ (t.take (min 100 t.length)).length ≤ 100 := by
  have htake : t.take (min 100 t.length) = t.take 100 := by
    rcases Nat.le_total 100 t.length with h | h
    · rw [Nat.min_eq_left h]
    · rw [Nat.min_eq_right h, List.take_length, List.take_of_length_le h]
  refine ⟨?_, numToString_unfold status, ?_, ?_⟩
  · rw [handleUsePhoto_held host userToken img _ s himg hne, htake]
    simp [settleUpload, afterFetch, hparse, lit_serverError, orElse]
  · simp [List.length_take]
  · simp [List.length_take]

/-- Witness for C1: status 502 with an HTML body on the sample host; the message is
`Server Error (502): <html>Bad Gateway</html>`. -/
theorem malformed_body_alert_witness :
    (handleUsePhoto sampleHost (lit "tok")
        (fun _ => FetchOutcome.response 502 (lit "<html>Bad Gateway</html>"))
        sampleReviewing).2
      = [Effect.fetch (buildRequest sampleHost (lit "tok") (lit "/tmp/a.jpg")),
         Effect.alert (lit "Error")
           (JSValue.str (lit "Server Error (502): <html>Bad Gateway</html>")) []]
    ∧ numToString 502 = [53, 48, 50]
    ∧ ((lit "<html>Bad Gateway</html>").take
          (min 100 (lit "<html>Bad Gateway</html>").length)).length = 24 :=
  ⟨(malformed_body_alert sampleHost (lit "tok") (lit "/tmp/a.jpg") sampleReviewing 502
      (lit "<html>Bad Gateway</html>") rfl (by decide) rfl).1.trans rfl,
   (malformed_body_alert sampleHost (lit "tok") (lit "/tmp/a.jpg") sampleReviewing 502
      (lit "<html>Bad Gateway</html>") rfl (by decide) rfl).2.1.trans rfl,
   (malformed_body_alert sampleHost (lit "tok") (lit "/tmp/a.jpg") sampleReviewing 502
      (lit "<html>Bad Gateway</html>") rfl (by decide) rfl).2.2.1.trans rfl⟩

/-! ## C2 — status 401 -/

/-- C2, counterexample. A 401 response whose body is empty (not JSON) raises the
`Error` alert of the `catch` clause; no Session Expired notice and no button that
signs out. -/
theorem unauthorized_unparsed_body :
    (handleUsePhoto sampleHost (lit "tok") (fun _ => FetchOutcome.response 401 [])
        sampleReviewing).2
      = [Effect.fetch (buildRequest sampleHost (lit "tok") (lit "/tmp/a.jpg")),
         Effect.alert (lit "Error") (JSValue.str (lit "Server Error (401): ")) []] := by
  rfl

/-- C2, amended. For a 401 response whose body parses as JSON, `handleUsePhoto` leaves
the state as it was apart from `isUploading = false` (the image handle is kept), and
its effects are the request followed by the Session Expired alert, whose single OK
button runs `signOut` once. -/
theorem unauthorized_session_expired (host : Host) (userToken img : JSString)
    (s : ScreenState) (t : JSString) (d : JSValue)
    (himg : s.capturedImage = some img) (hne : img ≠ [])
    (hparse : host.jsonParse t = some d) :
    handleUsePhoto host userToken (fun _ => FetchOutcome.response 401 t) s
      = ({ s with isUploading := false },
         [Effect.fetch (buildRequest host userToken img),
          Effect.alert (lit "Session Expired") (JSValue.str (lit "Please log in again."))
            [{ text := lit "OK", onPress := [ButtonAction.signOut] }]]) := by
  rw [handleUsePhoto_held host userToken img _ s himg hne]
  simp [settleUpload, afterFetch, hparse, responseOk]

/-- Witness for C2 (amended): a 401 with a JSON error body on the sample host. -/
theorem unauthorized_session_expired_witness :
    handleUsePhoto sampleHost (lit "tok")
        (fun _ => FetchOutcome.response 401 (lit "\x7b\"message\":\"Unauthorized\"\x7d"))
        sampleReviewing
      = ({ sampleReviewing with isUploading := false },
         [Effect.fetch (buildRequest sampleHost (lit "tok") (lit "/tmp/a.jpg")),
          Effect.alert (lit "Session Expired") (JSValue.str (lit "Please log in again."))
            [{ text := lit "OK", onPress := [ButtonAction.signOut] }]]) :=
  unauthorized_session_expired sampleHost (lit "tok") (lit "/tmp/a.jpg") sampleReviewing
    (lit "\x7b\"message\":\"Unauthorized\"\x7d")
    (JSValue.obj [(lit "message", JSValue.str (lit "Unauthorized"))]) rfl (by decide) rfl

/-! ## C3 — a successful upload -/

theorem renderResult_ok (host : Host) (percent : JSValue → JSString) (v : JSValue)
    (tree : Guarded ResultView) (h : renderResult host percent v = Except.ok tree) :
    resultSection host percent v = Except.ok tree ∧ sectionMounts tree = true := by
  unfold renderResult at h
  cases hr : resultSection host percent v with
  | error e => rw [hr] at h; cases h
  | ok built =>
    rw [hr] at h
    dsimp only at h
    by_cases hm : sectionMounts built = true
    · rw [if_pos hm] at h
      cases h
      exact ⟨rfl, hm⟩
    · rw [if_neg hm] at h
      cases h

/-- C3, counterexample. A 200 response whose body is the JSON text `null`: reading
`data.data` throws, the `catch` clause raises an `Error` alert, the modal stays hidden
and the image handle stays held. And a 200 response whose `data` is an empty object:
the handler stores it and opens the modal, but the render of that state throws, so no
result view is shown. -/
theorem success_status_null_body :
    handleUsePhoto sampleHost (lit "tok") (fun _ => FetchOutcome.response 200 (lit "null"))
        sampleReviewing
      = ({ sampleReviewing with isUploading := false },
         [Effect.fetch (buildRequest sampleHost (lit "tok") (lit "/tmp/a.jpg")),
          Effect.alert (lit "Error")
            (JSValue.str (lit "Cannot read property data of null")) []])
    ∧ (handleUsePhoto sampleHost (lit "tok")
        (fun _ => FetchOutcome.response 200 (lit "\x7b\"data\":\x7b\x7d\x7d"))
        sampleReviewing).1.scanResult = JSValue.obj []
    ∧ screenRenders sampleHost samplePercent
        (handleUsePhoto sampleHost (lit "tok")
          (fun _ => FetchOutcome.response 200 (lit "\x7b\"data\":\x7b\x7d\x7d"))
          sampleReviewing).1 = false := by
  exact ⟨rfl, rfl, rfl⟩

/-- C3, amended. For a 2xx response whose body parses as a JSON value `d` other than
`null` (`JSON.parse` never yields `undefined`) and whose `d.data` the result view
renders, `handleUsePhoto` ends with `scanResult` equal to the value of `d.data`, the
modal visible, `capturedImage` null and `isUploading` false; every other field is
unchanged, the only effect is the request, and the screen renders in that state. -/
theorem upload_success_shows_result (host : Host) (percent : JSValue → JSString)
    (userToken img : JSString) (s : ScreenState) (status : Nat) (t : JSString)
    (d : JSValue) (tree : Guarded ResultView)
    (himg : s.capturedImage = some img) (hne : img ≠ [])
    (hlo : 200 ≤ status) (hhi : status ≤ 299)
    (hparse : host.jsonParse t = some d)
    (hnull : d ≠ JSValue.null) (hundef : d ≠ JSValue.undefined)
    (hrender : renderResult host percent (readOpt d (lit "data")) = Except.ok tree) :
    getProp host d (lit "data") = Except.ok (readOpt d (lit "data"))
    ∧ handleUsePhoto host userToken (fun _ => FetchOutcome.response status t) s
        = ({ s with scanResult := readOpt d (lit "data"), modalVisible := true,
                    capturedImage := none, isUploading := false },
           [Effect.fetch (buildRequest host userToken img)])
    ∧ screenRenders host percent
        (handleUsePhoto host userToken (fun _ => FetchOutcome.response status t) s).1
        = true := by
  have hok : responseOk status = true := by simp [responseOk, hlo, hhi]
  have hget := getProp_of_ne host d (lit "data") hnull hundef
  have hrun : handleUsePhoto host userToken (fun _ => FetchOutcome.response status t) s
      = ({ s with scanResult := readOpt d (lit "data"), modalVisible := true,
                  capturedImage := none, isUploading := false },
         [Effect.fetch (buildRequest host userToken img)]) := by
    rw [handleUsePhoto_held host userToken img _ s himg hne]
    simp [settleUpload, afterFetch, hparse, hok, hget]
  obtain ⟨hbuilt, hmounts⟩ := renderResult_ok host percent _ tree hrender
  refine ⟨hget, hrun, ?_⟩
  rw [hrun]
  simp [screenRenders, truthy, hbuilt, hmounts]

/-- Witness for C3 (amended): a 200 whose `data` is `bareResult`. -/
theorem upload_success_shows_result_witness :
    handleUsePhoto resultHost (lit "tok") (fun _ => FetchOutcome.response 200 [])
        sampleReviewing
      = ({ sampleReviewing with scanResult := bareResult, modalVisible := true,
                                capturedImage := none, isUploading := false },
         [Effect.fetch (buildRequest resultHost (lit "tok") (lit "/tmp/a.jpg"))])
    ∧ screenRenders resultHost samplePercent
        (handleUsePhoto resultHost (lit "tok") (fun _ => FetchOutcome.response 200 [])
          sampleReviewing).1 = true :=
  (upload_success_shows_result resultHost samplePercent (lit "tok") (lit "/tmp/a.jpg")
    sampleReviewing 200 [] (JSValue.obj [(lit "data", bareResult)])
    (Guarded.element
      { imageUri := JSValue.undefined
        nameEn := JSValue.str (lit "Leaf Rust")
        nameAr := JSValue.str (lit "Sada")
        badgeColor := lit "#999"
        badgeText := JSValue.undefined
        confidence := samplePercent (JSValue.num 87 (-2))
        cards := none })
    rfl (by decide) (by decide) (by decide) rfl (by simp) (by simp) rfl).2

/-! ## C4 — failed uploads leave the state alone -/

/-- C4. After any failed upload attempt (request rejected, body not JSON, 401 or any
other non-2xx status) the state equals the state before confirm except that
`isUploading` is false: `capturedImage`, `modalVisible` and `scanResult` are unchanged.
The failure shows up as exactly one alert after the request. -/
theorem failed_upload_preserves_state (host : Host) (userToken img : JSString)
    (net : Request → FetchOutcome) (s : ScreenState)
    (himg : s.capturedImage = some img) (hne : img ≠ [])
    (hfail : uploadFailed host (net (buildRequest host userToken img)) = true) :
    (handleUsePhoto host userToken net s).1 = { s with isUploading := false }
    ∧ ∃ title message buttons,
        (handleUsePhoto host userToken net s).2
          = [Effect.fetch (buildRequest host userToken img),
             Effect.alert title message buttons] := by
  rw [handleUsePhoto_held host userToken img net s himg hne]
  obtain ⟨title, message, buttons, h⟩ :=
    settleUpload_failed host { s with isUploading := true } _ hfail
  rw [h]
  exact ⟨rfl, title, message, buttons, rfl⟩

/-- Witness for C4: the request is rejected before any response. -/
theorem failed_upload_preserves_state_witness :
    (handleUsePhoto sampleHost (lit "tok")
        (fun _ => FetchOutcome.rejected ⟨some (lit "Network request failed")⟩)
        sampleReviewing).1 = { sampleReviewing with isUploading := false }
    ∧ ∃ title message buttons,
        (handleUsePhoto sampleHost (lit "tok")
          (fun _ => FetchOutcome.rejected ⟨some (lit "Network request failed")⟩)
          sampleReviewing).2
          = [Effect.fetch (buildRequest sampleHost (lit "tok") (lit "/tmp/a.jpg")),
             Effect.alert title message buttons] :=
  failed_upload_preserves_state sampleHost (lit "tok") (lit "/tmp/a.jpg")
    (fun _ => FetchOutcome.rejected ⟨some (lit "Network request failed")⟩)
    sampleReviewing rfl (by decide) rfl

/-! ## C5 — one upload at a time -/

/-- C5, counterexample. Called in a state with an image held and `isUploading` already
true, `handleUsePhoto` sends a request and ends with `isUploading` false: the handler
itself is not a no-op there. -/
theorem usePhoto_handler_unguarded :
    handleUsePhoto sampleHost (lit "tok") (fun _ => FetchOutcome.rejected ⟨none⟩)
        sampleUploading
      = ({ sampleUploading with isUploading := false },
         [Effect.fetch (buildRequest sampleHost (lit "tok") (lit "/tmp/a.jpg")),
          Effect.alert (lit "Error") (JSValue.str (lit "Could not connect to server.")) []])
    ∧ sampleUploading.isUploading = true := by
  exact ⟨rfl, rfl⟩

/-- C5, amended. `handleUsePhoto` is a no-op exactly by its own guard (no image held:
no state change, no request). The Use Photo control is offered only while an image is
held and `isUploading` is false, so after every sequence of events from the first
mount: at most one request is in flight, `isUploading` is true exactly while one is,
and a Use Photo press while `isUploading` changes nothing and sends nothing. -/
theorem single_upload_in_flight (host : Host) (events : List Event) :
    (∀ userToken net s, truthy s.capturedImage = false →
        handleUsePhoto host userToken net s = (s, []))
    ∧ (run host events).inFlight.length ≤ 1
    ∧ ((run host events).ui.isUploading = true ↔ (run host events).inFlight ≠ [])
    ∧ ((run host events).ui.isUploading = true →
        Control.usePhoto ∉ controls (run host events).ui)
    ∧ (∀ userToken, (run host events).ui.isUploading = true →
        step host (run host events) (Event.usePhoto userToken) = run host events) := by
  have h := inv_run host events
  have hno : (run host events).ui.isUploading = true →
      Control.usePhoto ∉ controls (run host events).ui := by
    intro hu hmem
    have := ((mem_controls_preview _ _ (Or.inr rfl)).1 hmem).2
    rw [hu] at this; cases this
  refine ⟨?_, h.atMostOne, h.uploading_iff, hno, ?_⟩
  · intro userToken net s hs
    have hstart : startUpload host userToken s = none := by
      unfold startUpload
      cases hc : s.capturedImage with
      | none => rfl
      | some l =>
        cases l with
        | nil => rfl
        | cons c cs => rw [hc] at hs; cases hs
    simp [handleUsePhoto, hstart]
  · intro userToken hu
    show (if Control.usePhoto ∈ controls (run host events).ui then _ else _) = _
    rw [if_neg (hno hu)]

/-- Witness for C5 (amended): after picking an image and pressing Use Photo, a second
press finds no Use Photo control and one request in flight. -/
theorem single_upload_in_flight_witness :
    (run sampleHost [Event.gallery (PickerOutcome.asset (lit "/tmp/a.jpg")),
        Event.usePhoto (lit "tok")]).ui.isUploading = true
    ∧ Control.usePhoto ∉ controls (run sampleHost
        [Event.gallery (PickerOutcome.asset (lit "/tmp/a.jpg")),
         Event.usePhoto (lit "tok")]).ui
    ∧ step sampleHost (run sampleHost
        [Event.gallery (PickerOutcome.asset (lit "/tmp/a.jpg")),
         Event.usePhoto (lit "tok")]) (Event.usePhoto (lit "tok"))
      = run sampleHost [Event.gallery (PickerOutcome.asset (lit "/tmp/a.jpg")),
         Event.usePhoto (lit "tok")] :=
  ⟨rfl,
   (single_upload_in_flight sampleHost [Event.gallery (PickerOutcome.asset (lit "/tmp/a.jpg")),
      Event.usePhoto (lit "tok")]).2.2.2.1 rfl,
   (single_upload_in_flight sampleHost [Event.gallery (PickerOutcome.asset (lit "/tmp/a.jpg")),
      Event.usePhoto (lit "tok")]).2.2.2.2 (lit "tok") rfl⟩

/-! ## C6 — dismissing the result -/

/-- C6, counterexample. After a successful upload of a renderable result the screen is
mounted with the modal shown; after each of the three dismiss actions the screen is
still mounted and `scanResult` still holds the result: it is not reset to `null`. -/
theorem dismiss_keeps_scanResult :
    (runMounted resultHost samplePercent (uploadEvents 200)).map
        (fun sys => sys.ui.modalVisible) = some true
    ∧ (runMounted resultHost samplePercent (uploadEvents 200 ++ [Event.modalClose])).map
        (fun sys => sys.ui.scanResult) = some bareResult
    ∧ (runMounted resultHost samplePercent (uploadEvents 200 ++ [Event.modalDone])).map
        (fun sys => sys.ui.scanResult) = some bareResult
    ∧ (runMounted resultHost samplePercent
        (uploadEvents 200 ++ [Event.modalRequestClose])).map
        (fun sys => sys.ui.scanResult) = some bareResult
    ∧ bareResult ≠ JSValue.null := by
  refine ⟨rfl, rfl, rfl, rfl, ?_⟩
  intro h
  cases h

/-- C6, amended. In every state reached with the screen mounted where the result modal
is visible, each dismiss action (close icon, Done button, back request) only sets
`modalVisible` to false: the screen stays mounted and is back on the live camera with
no image handle held and no upload running, while `scanResult` keeps its value. -/
theorem dismiss_returns_to_live (host : Host) (percent : JSValue → JSString) (sys : Sys)
    (e : Event)
    (hreach : ReachableMounted host percent sys)
    (hshown : sys.ui.modalVisible = true)
    (he : e = Event.modalClose ∨ e = Event.modalDone ∨ e = Event.modalRequestClose) :
    (step host sys e).ui = dismissModal sys.ui
    ∧ (step host sys e).ui.modalVisible = false
    ∧ (step host sys e).ui.capturedImage = none
    ∧ (step host sys e).ui.isUploading = false
    ∧ (step host sys e).ui.scanResult = sys.ui.scanResult
    ∧ controls (step host sys e).ui
        = [Control.toggleFlash, Control.toggleCameraType, Control.gallery, Control.shutter]
    ∧ stepMounted host percent sys e = some (step host sys e) := by
  obtain ⟨⟨events, rfl⟩, _, tree, hbuilt⟩ := reachableMounted_spec host percent sys hreach
  have h := inv_run host events
  have himg := h.modal_image hshown
  have hup : (run host events).ui.isUploading = false := by
    cases hu : (run host events).ui.isUploading with
    | false => rfl
    | true =>
      have := h.uploading_image hu
      rw [himg] at this; cases this
  have hctl : controls (run host events).ui
      = [Control.modalRequestClose, Control.modalClose, Control.modalDone] := by
    simp [controls, himg, hshown, truthy]
  have hstep : (step host (run host events) e).ui = dismissModal (run host events).ui := by
    rcases he with rfl | rfl | rfl <;> simp [step, onPress, hctl]
  have hrenders : screenRenders host percent (step host (run host events) e).ui = true := by
    rw [hstep]
    exact screenRenders_hidden host percent _ tree hbuilt rfl
  refine ⟨hstep, ?_, ?_, ?_, ?_, ?_, ?_⟩
  · rw [hstep]; rfl
  · rw [hstep]; exact himg
  · rw [hstep]; exact hup
  · rw [hstep]; rfl
  · rw [hstep]; simp [controls, dismissModal, himg, truthy]
  · simp [stepMounted, hrenders]

/-- Witness for C6 (amended): pressing Done on the shown result `bareResult`. -/
theorem dismiss_returns_to_live_witness :
    (step resultHost (run resultHost (uploadEvents 200)) Event.modalDone).ui
      = dismissModal (run resultHost (uploadEvents 200)).ui
    ∧ (step resultHost (run resultHost (uploadEvents 200)) Event.modalDone).ui.modalVisible
        = false
    ∧ (step resultHost (run resultHost (uploadEvents 200)) Event.modalDone).ui.capturedImage
        = none
    ∧ (step resultHost (run resultHost (uploadEvents 200)) Event.modalDone).ui.isUploading
        = false
    ∧ (step resultHost (run resultHost (uploadEvents 200)) Event.modalDone).ui.scanResult
        = (run resultHost (uploadEvents 200)).ui.scanResult
    ∧ controls (step resultHost (run resultHost (uploadEvents 200)) Event.modalDone).ui
        = [Control.toggleFlash, Control.toggleCameraType, Control.gallery, Control.shutter]
    ∧ stepMounted resultHost samplePercent (run resultHost (uploadEvents 200)) Event.modalDone
        = some (step resultHost (run resultHost (uploadEvents 200)) Event.modalDone) :=
  dismiss_returns_to_live resultHost samplePercent (run resultHost (uploadEvents 200))
    Event.modalDone ⟨uploadEvents 200, rfl⟩ rfl (Or.inr (Or.inl rfl))

/-! ## C7 — retake -/

/-- C7, counterexample. A Reviewing state reached, with the screen mounted throughout,
after an earlier scan was shown and dismissed: Retake is offered, and after it the
screen is still mounted, `capturedImage` is null but `scanResult` still holds the
earlier result. -/
theorem retake_keeps_scanResult :
    (runMounted resultHost samplePercent secondReviewEvents).map
        (fun sys => decide (Control.retake ∈ controls sys.ui)) = some true
    ∧ (runMounted resultHost samplePercent (secondReviewEvents ++ [Event.retake])).map
        (fun sys => sys.ui.capturedImage) = some none
    ∧ (runMounted resultHost samplePercent (secondReviewEvents ++ [Event.retake])).map
        (fun sys => sys.ui.scanResult) = some bareResult
    ∧ bareResult ≠ JSValue.null := by
  refine ⟨rfl, rfl, rfl, ?_⟩
  intro h
  cases h

/-- C7, amended. In every Reviewing state reached with the screen mounted (Retake is
offered), retake only sets `capturedImage` to null: the screen stays mounted and is
back on the live camera with no image handle held, the modal hidden and no upload
running, while `scanResult` keeps its value (null only if no upload has succeeded
before). -/
theorem retake_returns_to_live (host : Host) (percent : JSValue → JSString) (sys : Sys)
    (hreach : ReachableMounted host percent sys)
    (hrev : Control.retake ∈ controls sys.ui) :
    (step host sys Event.retake).ui = handleRetake sys.ui
    ∧ (step host sys Event.retake).ui.capturedImage = none
    ∧ (step host sys Event.retake).ui.modalVisible = false
    ∧ (step host sys Event.retake).ui.isUploading = false
    ∧ (step host sys Event.retake).ui.scanResult = sys.ui.scanResult
    ∧ controls (step host sys Event.retake).ui
        = [Control.toggleFlash, Control.toggleCameraType, Control.gallery, Control.shutter]
    ∧ stepMounted host percent sys Event.retake = some (step host sys Event.retake) := by
  obtain ⟨⟨events, rfl⟩, _, tree, hbuilt⟩ := reachableMounted_spec host percent sys hreach
  have h := inv_run host events
  have hguard := (mem_controls_preview _ _ (Or.inl rfl)).1 hrev
  have hmod := h.image_modal hguard.1
  have hstep : (step host (run host events) Event.retake).ui
      = handleRetake (run host events).ui := by
    simp [step, onPress, hrev]
  have hrenders : screenRenders host percent (step host (run host events) Event.retake).ui
      = true := by
    rw [hstep]
    exact screenRenders_hidden host percent _ tree hbuilt hmod
  refine ⟨hstep, ?_, ?_, ?_, ?_, ?_, ?_⟩
  · rw [hstep]; rfl
  · rw [hstep]; exact hmod
  · rw [hstep]; exact hguard.2
  · rw [hstep]; rfl
  · rw [hstep]; simp [controls, handleRetake, hmod, truthy]
  · simp [stepMounted, hrenders]

/-- Witness for C7 (amended): retake in the Reviewing state of `secondReviewEvents`. -/
theorem retake_returns_to_live_witness :
    (step resultHost (run resultHost secondReviewEvents) Event.retake).ui
      = handleRetake (run resultHost secondReviewEvents).ui
    ∧ (step resultHost (run resultHost secondReviewEvents) Event.retake).ui.capturedImage
        = none
    ∧ (step resultHost (run resultHost secondReviewEvents) Event.retake).ui.modalVisible
        = false
    ∧ (step resultHost (run resultHost secondReviewEvents) Event.retake).ui.isUploading
        = false
    ∧ (step resultHost (run resultHost secondReviewEvents) Event.retake).ui.scanResult
        = (run resultHost secondReviewEvents).ui.scanResult
    ∧ controls (step resultHost (run resultHost secondReviewEvents) Event.retake).ui
        = [Control.toggleFlash, Control.toggleCameraType, Control.gallery, Control.shutter]
    ∧ stepMounted resultHost samplePercent (run resultHost secondReviewEvents) Event.retake
        = some (step resultHost (run resultHost secondReviewEvents) Event.retake) :=
  retake_returns_to_live resultHost samplePercent (run resultHost secondReviewEvents)
    ⟨secondReviewEvents, rfl⟩ (by decide)

/-! ## C8 — severity colours -/

/-- C8. With an idempotent `toUpperCase` (as the built-in is), `getSeverityColor s`
equals `getSeverityColor` of the uppercase form of `s`; it is `#D32F2F`, `#F57C00` or
`#388E3C` exactly when the uppercase form is `HIGH`, `MEDIUM` or `LOW`, and `#999` for
every other string and for an absent severity. -/
theorem severity_color_by_uppercase (host : Host) (s : JSString)
    (hidem : ∀ x, host.toUpperCase (host.toUpperCase x) = host.toUpperCase x) :
    getSeverityColor host (some s) = getSeverityColor host (some (host.toUpperCase s))
    ∧ (getSeverityColor host (some s) = lit "#D32F2F" ↔ host.toUpperCase s = lit "HIGH")
    ∧ (getSeverityColor host (some s) = lit "#F57C00" ↔ host.toUpperCase s = lit "MEDIUM")
    ∧ (getSeverityColor host (some s) = lit "#388E3C" ↔ host.toUpperCase s = lit "LOW")
    ∧ (getSeverityColor host (some s) = lit "#999" ↔
        (host.toUpperCase s ≠ lit "HIGH" ∧ host.toUpperCase s ≠ lit "MEDIUM"
          ∧ host.toUpperCase s ≠ lit "LOW"))
    ∧ getSeverityColor host none = lit "#999" := by
  have c1 : lit "#D32F2F" ≠ lit "#F57C00" := by decide
  have c2 : lit "#D32F2F" ≠ lit "#388E3C" := by decide
  have c3 : lit "#D32F2F" ≠ lit "#999" := by decide
  have c4 : lit "#F57C00" ≠ lit "#388E3C" := by decide
  have c5 : lit "#F57C00" ≠ lit "#999" := by decide
  have c6 : lit "#388E3C" ≠ lit "#999" := by decide
  have n1 : lit "HIGH" ≠ lit "MEDIUM" := by decide
  have n2 : lit "HIGH" ≠ lit "LOW" := by decide
  have n3 : lit "MEDIUM" ≠ lit "LOW" := by decide
  refine ⟨?_, ?_, ?_, ?_, ?_, rfl⟩
  · simp only [getSeverityColor, hidem]
  all_goals
    simp only [getSeverityColor]
    by_cases h1 : host.toUpperCase s = lit "HIGH"
    · simp [h1, c1, c2, c3, n1, n2]
    · by_cases h2 : host.toUpperCase s = lit "MEDIUM"
      · simp [h2, c1.symm, c4, c5, n1.symm, n3]
      · by_cases h3 : host.toUpperCase s = lit "LOW"
        · simp [h3, c2.symm, c4.symm, c6, n2.symm, n3.symm]
        · simp [h1, h2, h3, c3.symm, c5.symm, c6.symm]

/-- Witness for C8: the mixed-case `High` on the sample host. -/
theorem severity_color_by_uppercase_witness :
    getSeverityColor sampleHost (some (lit "High"))
      = getSeverityColor sampleHost (some (sampleHost.toUpperCase (lit "High")))
    ∧ (getSeverityColor sampleHost (some (lit "High")) = lit "#D32F2F"
        ↔ sampleHost.toUpperCase (lit "High") = lit "HIGH")
    ∧ (getSeverityColor sampleHost (some (lit "High")) = lit "#F57C00"
        ↔ sampleHost.toUpperCase (lit "High") = lit "MEDIUM")
    ∧ (getSeverityColor sampleHost (some (lit "High")) = lit "#388E3C"
        ↔ sampleHost.toUpperCase (lit "High") = lit "LOW")
    ∧ (getSeverityColor sampleHost (some (lit "High")) = lit "#999" ↔
        (sampleHost.toUpperCase (lit "High") ≠ lit "HIGH"
          ∧ sampleHost.toUpperCase (lit "High") ≠ lit "MEDIUM"
          ∧ sampleHost.toUpperCase (lit "High") ≠ lit "LOW"))
    ∧ getSeverityColor sampleHost none = lit "#999" :=
  severity_color_by_uppercase sampleHost (lit "High") asciiUpper_idem

/-! ## C9 — the transmitted URI -/

/-- C9. The `uri` of the single body part is the normalised handle. On android it is
the handle itself when that already starts with `file://` or `content://`, and
`file://` followed by the handle otherwise, so it always starts with one of the two
schemes; on any other platform it is the handle unchanged. -/
theorem upload_uri_normalized (host : Host) (userToken u : JSString) :
    (buildRequest host userToken u).body.map FormPart.uri = [normalizeUri host.os u]
    ∧ (host.os = lit "android" →
        ((lit "file://").isPrefixOf u = true ∨ (lit "content://").isPrefixOf u = true →
          normalizeUri host.os u = u)
        ∧ (¬ ((lit "file://").isPrefixOf u = true ∨ (lit "content://").isPrefixOf u = true) →
          normalizeUri host.os u = lit "file://" ++ u)
        ∧ ((lit "file://").isPrefixOf (normalizeUri host.os u) = true
          ∨ (lit "content://").isPrefixOf (normalizeUri host.os u) = true))
    ∧ (host.os ≠ lit "android" → normalizeUri host.os u = u) := by
  refine ⟨rfl, ?_, ?_⟩
  · intro hos
    by_cases hf : (lit "file://").isPrefixOf u = true
    · have hn : normalizeUri host.os u = u := by simp [normalizeUri, hf]
      exact ⟨fun _ => hn, fun h => absurd (Or.inl hf) h, Or.inl (by rw [hn]; exact hf)⟩
    · by_cases hc : (lit "content://").isPrefixOf u = true
      · have hn : normalizeUri host.os u = u := by simp [normalizeUri, hc]
        exact ⟨fun _ => hn, fun h => absurd (Or.inr hc) h, Or.inr (by rw [hn]; exact hc)⟩
      · have hn : normalizeUri host.os u = lit "file://" ++ u := by
          simp [normalizeUri, hos, hf, hc]
        refine ⟨fun h => (h.elim (absurd · hf) (absurd · hc)), fun _ => hn, Or.inl ?_⟩
        rw [hn, List.isPrefixOf_iff_prefix]
        exact List.prefix_append _ _
  · intro hos
    simp [normalizeUri, hos]

/-- Witness for C9: a bare path on the android sample host gets the `file://` scheme. -/
theorem upload_uri_normalized_witness :
    normalizeUri sampleHost.os (lit "/tmp/a.jpg") = lit "file://" ++ lit "/tmp/a.jpg"
    ∧ ((lit "file://").isPrefixOf (normalizeUri sampleHost.os (lit "/tmp/a.jpg")) = true
      ∨ (lit "content://").isPrefixOf (normalizeUri sampleHost.os (lit "/tmp/a.jpg")) = true) :=
  ⟨((upload_uri_normalized sampleHost (lit "tok") (lit "/tmp/a.jpg")).2.1 rfl).2.1
      (by decide),
   ((upload_uri_normalized sampleHost (lit "tok") (lit "/tmp/a.jpg")).2.1 rfl).2.2⟩

/-! ## C10 — the request -/

/-- C10. With an image handle held, whatever the token and however the network
answers, `handleUsePhoto` issues exactly one request: a `POST` to the upload endpoint
with the single header `Authorization: bearer <token>` and a body of one part, field
`image`, name `scan.jpg`, type `image/jpeg`, whose `uri` is the normalised handle. -/
theorem upload_request_shape (host : Host) (userToken img : JSString)
    (net : Request → FetchOutcome) (s : ScreenState)
    (himg : s.capturedImage = some img) (hne : img ≠ []) :
    requestsOf (handleUsePhoto host userToken net s).2
      = [{ url := host.uploadScanUrl
           method := lit "POST"
           headers := [(lit "Authorization", lit "bearer " ++ userToken)]
           body := [{ field := lit "image"
                      uri := normalizeUri host.os img
                      name := lit "scan.jpg"
                      type := lit "image/jpeg" }] }] := by
  rw [handleUsePhoto_held host userToken img net s himg hne]
  simp only [requestsOf, settleUpload_no_request]
  rfl

/-- Witness for C10: the request sent for `/tmp/a.jpg` on the sample host. -/
theorem upload_request_shape_witness :
    requestsOf (handleUsePhoto sampleHost (lit "tok")
        (fun _ => FetchOutcome.response 200 (lit "null")) sampleReviewing).2
      = [{ url := sampleHost.uploadScanUrl
           method := lit "POST"
           headers := [(lit "Authorization", lit "bearer " ++ lit "tok")]
           body := [{ field := lit "image"
                      uri := normalizeUri sampleHost.os (lit "/tmp/a.jpg")
                      name := lit "scan.jpg"
                      type := lit "image/jpeg" }] }] :=
  upload_request_shape sampleHost (lit "tok") (lit "/tmp/a.jpg")
    (fun _ => FetchOutcome.response 200 (lit "null")) sampleReviewing rfl (by decide)

/-! ## C11 — a rejected request -/

/-- C11, counterexample. Status 500 with the JSON body `null`: reading `data.message`
throws and the `catch` clause raises an `Error` alert, not Upload Failed. And status 500
with a body whose `message` field is present but empty: the generic text is shown. -/
theorem rejected_null_or_empty_message :
    handleUsePhoto sampleHost (lit "tok") (fun _ => FetchOutcome.response 500 (lit "null"))
        sampleReviewing
      = ({ sampleReviewing with isUploading := false },
         [Effect.fetch (buildRequest sampleHost (lit "tok") (lit "/tmp/a.jpg")),
          Effect.alert (lit "Error")
            (JSValue.str (lit "Cannot read property message of null")) []])
    ∧ handleUsePhoto (hostReading (JSValue.obj [(lit "message", JSValue.str [])])) (lit "tok")
        (fun _ => FetchOutcome.response 500 []) sampleReviewing
      = ({ sampleReviewing with isUploading := false },
         [Effect.fetch (buildRequest
            (hostReading (JSValue.obj [(lit "message", JSValue.str [])])) (lit "tok")
            (lit "/tmp/a.jpg")),
          Effect.alert (lit "Upload Failed")
            (JSValue.str (lit "Something went wrong.")) []]) := by
  exact ⟨rfl, rfl⟩

/-- C11, amended. For a response whose status is neither 2xx nor 401 and whose body
parses as a JSON value `d` other than `null`, `handleUsePhoto` raises the Upload Failed
alert; its message is the value of `d.message` when that value is truthy and
`Something went wrong.` otherwise (field absent, or `null`, `false`, `0`, empty text). -/
theorem rejected_upload_alert (host : Host) (userToken img : JSString) (s : ScreenState)
    (status : Nat) (t : JSString) (d : JSValue)
    (himg : s.capturedImage = some img) (hne : img ≠ [])
    (hnok : responseOk status = false) (h401 : status ≠ 401)
    (hparse : host.jsonParse t = some d)
    (hnull : d ≠ JSValue.null) (hundef : d ≠ JSValue.undefined) :
    handleUsePhoto host userToken (fun _ => FetchOutcome.response status t) s
      = ({ s with isUploading := false },
         [Effect.fetch (buildRequest host userToken img),
          Effect.alert (lit "Upload Failed")
            (if (readOpt d (lit "message")).truthy = true then readOpt d (lit "message")
             else JSValue.str (lit "Something went wrong.")) []]) := by
  rw [handleUsePhoto_held host userToken img _ s himg hne]
  simp only [settleUpload, afterFetch_rejected_status host _ status t d hparse hnok,
    if_neg h401, getProp_of_ne host d _ hnull hundef, JSValue.or]

/-- Witness for C11 (amended): a 500 whose body carries the message `Unauthorized`. -/
theorem rejected_upload_alert_witness :
    handleUsePhoto sampleHost (lit "tok")
        (fun _ => FetchOutcome.response 500 (lit "\x7b\"message\":\"Unauthorized\"\x7d"))
        sampleReviewing
      = ({ sampleReviewing with isUploading := false },
         [Effect.fetch (buildRequest sampleHost (lit "tok") (lit "/tmp/a.jpg")),
          Effect.alert (lit "Upload Failed")
            (if (readOpt (JSValue.obj [(lit "message", JSValue.str (lit "Unauthorized"))])
                  (lit "message")).truthy = true
             then readOpt (JSValue.obj [(lit "message", JSValue.str (lit "Unauthorized"))])
                  (lit "message")
             else JSValue.str (lit "Something went wrong.")) []]) :=
  rejected_upload_alert sampleHost (lit "tok") (lit "/tmp/a.jpg") sampleReviewing 500
    (lit "\x7b\"message\":\"Unauthorized\"\x7d")
    (JSValue.obj [(lit "message", JSValue.str (lit "Unauthorized"))])
    rfl (by decide) rfl (by decide) rfl (by simp) (by simp)

/-! ## C12 — the treatment cards -/

/-- C12, counterexample. An item whose `descriptionAr` field is present with the empty
text: its card carries no Arabic `Text` element, only the falsy value itself. -/
theorem empty_arabic_not_rendered :
    lookupField (lit "descriptionAr") emptyArabicItem = JSValue.str []
    ∧ treatmentCards (JSValue.arr [JSValue.obj emptyArabicItem])
      = Except.ok (some [{ key := JSValue.num 7 0
                           iconName := lit "flask"
                           iconColor := lit "#D32F2F"
                           titleEn := JSValue.str (lit "Apply fungicide")
                           descriptionEn := JSValue.str (lit "Spray weekly")
                           descriptionAr := Guarded.value (JSValue.str []) }]) := by
  exact ⟨rfl, rfl⟩

/-- C12, amended. For `details` an array of items none of which is `null`, the cards
correspond one to one and in order to the items: the list has the same length, and
the card of an item shows its `titleEn` and `descriptionEn`, has the flask/red icon
when `isChemical` is true (any truthy value) and the leaf/green icon when it is false
or absent, and contains the Arabic `Text` exactly when `descriptionAr` is truthy
(present and not empty), whose child is then that value. An absent (or `null`)
`details` renders no cards. -/
theorem treatment_cards_follow_details (items : List JSValue)
    (hitems : ∀ item ∈ items, item ≠ JSValue.null ∧ item ≠ JSValue.undefined) :
    (∃ cards, treatmentCards (JSValue.arr items) = Except.ok (some cards)
      ∧ cards.length = items.length
      ∧ List.Forall₂ (fun item card =>
          card.titleEn = readOpt item (lit "titleEn")
          ∧ card.descriptionEn = readOpt item (lit "descriptionEn")
          ∧ ((readOpt item (lit "isChemical")).truthy = true →
              card.iconName = lit "flask" ∧ card.iconColor = lit "#D32F2F")
          ∧ ((readOpt item (lit "isChemical")).truthy = false →
              card.iconName = lit "leaf" ∧ card.iconColor = lit "#388E3C")
          ∧ ((readOpt item (lit "descriptionAr")).truthy = true →
              card.descriptionAr = Guarded.element (readOpt item (lit "descriptionAr")))
          ∧ ((readOpt item (lit "descriptionAr")).truthy = false →
              card.descriptionAr = Guarded.value (readOpt item (lit "descriptionAr"))))
          items cards)
    ∧ treatmentCards JSValue.undefined = Except.ok none
    ∧ treatmentCards JSValue.null = Except.ok none := by
  refine ⟨?_, rfl, rfl⟩
  obtain ⟨cards, hcards, hall⟩ := mapCards_of_ne items 0 hitems
  refine ⟨cards, by simp only [treatmentCards, hcards], hall.length_eq.symm, ?_⟩
  have hmem : ∀ item card, item ∈ items →
      (∃ position, treatmentCard item position = Except.ok card) →
      card.titleEn = readOpt item (lit "titleEn")
      ∧ card.descriptionEn = readOpt item (lit "descriptionEn")
      ∧ ((readOpt item (lit "isChemical")).truthy = true →
          card.iconName = lit "flask" ∧ card.iconColor = lit "#D32F2F")
      ∧ ((readOpt item (lit "isChemical")).truthy = false →
          card.iconName = lit "leaf" ∧ card.iconColor = lit "#388E3C")
      ∧ ((readOpt item (lit "descriptionAr")).truthy = true →
          card.descriptionAr = Guarded.element (readOpt item (lit "descriptionAr")))
      ∧ ((readOpt item (lit "descriptionAr")).truthy = false →
          card.descriptionAr = Guarded.value (readOpt item (lit "descriptionAr"))) := by
    intro item card hin ⟨position, hcard⟩
    have hitem := hitems item hin
    rw [treatmentCard_of_ne item position hitem.1 hitem.2] at hcard
    cases hcard
    refine ⟨rfl, rfl, ?_, ?_, ?_, ?_⟩ <;> intro h <;> simp [h, guardBy]
  clear hcards
  induction hall with
  | nil => exact List.Forall₂.nil
  | cons hhead _ ih =>
    refine List.Forall₂.cons (hmem _ _ (List.mem_cons_self _ _) hhead) (ih ?_ ?_)
    · exact fun x hx => hitems x (List.mem_cons_of_mem _ hx)
    · exact fun item card hin h => hmem item card (List.mem_cons_of_mem _ hin) h

/-- Witness for C12 (amended): a chemical item with empty Arabic text followed by a
plain item. -/
theorem treatment_cards_follow_details_witness :
    (∃ cards, treatmentCards (JSValue.arr [JSValue.obj emptyArabicItem, JSValue.obj plainItem])
        = Except.ok (some cards)
      ∧ cards.length = [JSValue.obj emptyArabicItem, JSValue.obj plainItem].length
      ∧ List.Forall₂ (fun item card =>
          card.titleEn = readOpt item (lit "titleEn")
          ∧ card.descriptionEn = readOpt item (lit "descriptionEn")
          ∧ ((readOpt item (lit "isChemical")).truthy = true →
              card.iconName = lit "flask" ∧ card.iconColor = lit "#D32F2F")
          ∧ ((readOpt item (lit "isChemical")).truthy = false →
              card.iconName = lit "leaf" ∧ card.iconColor = lit "#388E3C")
          ∧ ((readOpt item (lit "descriptionAr")).truthy = true →
              card.descriptionAr = Guarded.element (readOpt item (lit "descriptionAr")))
          ∧ ((readOpt item (lit "descriptionAr")).truthy = false →
              card.descriptionAr = Guarded.value (readOpt item (lit "descriptionAr"))))
          [JSValue.obj emptyArabicItem, JSValue.obj plainItem] cards)
    ∧ treatmentCards JSValue.undefined = Except.ok none
    ∧ treatmentCards JSValue.null = Except.ok none :=
  treatment_cards_follow_details [JSValue.obj emptyArabicItem, JSValue.obj plainItem]
    (by
      intro item hin
      simp only [List.mem_cons, List.mem_singleton, List.not_mem_nil, or_false] at hin
      rcases hin with rfl | rfl <;> exact ⟨by simp, by simp⟩)

/-! ## C13 — rendering the stored result -/

theorem validChild_of_text (v : JSValue) (h : textOrAbsent v = true) :
    validChild v = true := by
  cases v <;> first | rfl | (simp [textOrAbsent] at h)

theorem coercible_of_number (v : JSValue) (h : numberOrAbsent v = true) :
    coercible v = true := by
  cases v <;> first | rfl | (simp [numberOrAbsent] at h)

theorem severityColor_of_text (host : Host) (v : JSValue) (h : textOrAbsent v = true) :
    ∃ color, severityColor host v = Except.ok color
      ∧ (v = JSValue.undefined → color = lit "#999") := by
  cases v with
  | undefined => exact ⟨_, rfl, fun _ => rfl⟩
  | null => exact ⟨_, rfl, fun _ => rfl⟩
  | str text => exact ⟨_, rfl, fun h2 => by cases h2⟩
  | bool b => simp [textOrAbsent] at h
  | num m e => simp [textOrAbsent] at h
  | arr xs => simp [textOrAbsent] at h
  | obj fs => simp [textOrAbsent] at h

theorem key_coerces (id : JSValue) (index : Nat) (h : idOrAbsent id = true) :
    coercible (id.or (JSValue.num (Int.ofNat index) 0)) = true := by
  cases id with
  | undefined => rfl
  | null => rfl
  | str text => unfold JSValue.or; split <;> rfl
  | num m e => unfold JSValue.or; split <;> rfl
  | bool b => simp [idOrAbsent] at h
  | arr xs => simp [idOrAbsent] at h
  | obj fs => simp [idOrAbsent] at h

theorem arabic_mounts (v : JSValue) (h : shownTextOrAbsent v = true) :
    (match (guardBy v v : Guarded JSValue) with
     | Guarded.element child => validChild child
     | Guarded.value left => bareChildOk left) = true := by
  cases v with
  | undefined => rfl
  | null => rfl
  | str text =>
    cases text with
    | nil => simp [shownTextOrAbsent] at h
    | cons c cs => rfl
  | bool b => simp [shownTextOrAbsent] at h
  | num m e => simp [shownTextOrAbsent] at h
  | arr xs => simp [shownTextOrAbsent] at h
  | obj fs => simp [shownTextOrAbsent] at h

theorem treatmentCard_of_shape (item : JSValue) (index : Nat) (h : itemShape item = true) :
    ∃ card, treatmentCard item index = Except.ok card
      ∧ coercible card.key = true ∧ cardMounts card = true := by
  cases item with
  | obj fields =>
    simp only [itemShape, Bool.and_eq_true] at h
    obtain ⟨⟨⟨hid, htitle⟩, hdesc⟩, har⟩ := h
    refine ⟨_, treatmentCard_of_ne (JSValue.obj fields) index (by simp) (by simp), ?_, ?_⟩
    · exact key_coerces _ index hid
    · simp only [cardMounts, Bool.and_eq_true]
      exact ⟨⟨validChild_of_text _ htitle, validChild_of_text _ hdesc⟩, arabic_mounts _ har⟩
  | undefined => simp [itemShape] at h
  | null => simp [itemShape] at h
  | bool b => simp [itemShape] at h
  | num m e => simp [itemShape] at h
  | str x => simp [itemShape] at h
  | arr xs => simp [itemShape] at h

theorem mapCards_of_shape (items : List JSValue) (index : Nat)
    (hitems : ∀ item ∈ items, itemShape item = true) :
    ∃ cards, mapCards items index = Except.ok cards
      ∧ cards.all (fun card => coercible card.key) = true
      ∧ cards.all cardMounts = true := by
  induction items generalizing index with
  | nil => exact ⟨[], rfl, rfl, rfl⟩
  | cons item rest ih =>
    obtain ⟨cards, hcards, hkeys, hmounts⟩ :=
      ih (index + 1) (fun x hx => hitems x (List.mem_cons_of_mem _ hx))
    obtain ⟨card, hcard, hkey, hmount⟩ :=
      treatmentCard_of_shape item index (hitems item (List.mem_cons_self _ _))
    refine ⟨card :: cards, ?_, ?_, ?_⟩
    · simp only [mapCards, hcard, hcards]
    · simp only [List.all_cons, hkey, hkeys, Bool.and_self]
    · simp only [List.all_cons, hmount, hmounts, Bool.and_self]

/-- C13, counterexample. The value stored by a successful upload whose `data` is an
empty object has no `prediction`; building the result section reads
`scanResult.prediction.disease` and throws, so the screen does not render. The render
also fails for a `nameEn` that is an object, a `descriptionAr` that is `0`, a
`confidence` that cannot be converted to a number, a `severity` that is a number and a
`details` that is text. -/
theorem result_without_prediction_throws :
    (run sampleHost shownEvents).ui.scanResult = JSValue.obj []
    ∧ renderResult sampleHost samplePercent (run sampleHost shownEvents).ui.scanResult
      = Except.error (RenderError.thrown (JSTypeError.nullRead (lit "disease")))
    ∧ screenRenders sampleHost samplePercent (run sampleHost shownEvents).ui = false
    ∧ runMounted sampleHost samplePercent shownEvents = none
    ∧ renderResult sampleHost samplePercent
        (resultWith [(lit "nameEn", JSValue.obj [])] (JSValue.num 87 (-2)) JSValue.undefined)
      = Except.error RenderError.rejectedChild
    ∧ renderResult sampleHost samplePercent
        (resultWith [] (JSValue.num 87 (-2))
          (JSValue.arr [JSValue.obj [(lit "descriptionAr", JSValue.num 0 0)]]))
      = Except.error RenderError.rejectedChild
    ∧ renderResult sampleHost samplePercent
        (resultWith [] (JSValue.obj [(lit "toString", JSValue.null)]) JSValue.undefined)
      = Except.error RenderError.notPrimitive
    ∧ renderResult sampleHost samplePercent
        (resultWith [(lit "severity", JSValue.num 3 0)] (JSValue.num 87 (-2))
          JSValue.undefined)
      = Except.error (RenderError.thrown (JSTypeError.notCallable (lit "toUpperCase")))
    ∧ renderResult sampleHost samplePercent
        (resultWith [] (JSValue.num 87 (-2)) (JSValue.str (lit "none")))
      = Except.error (RenderError.thrown (JSTypeError.notCallable (lit "map"))) := by
  exact ⟨rfl, rfl, rfl, rfl, rfl, rfl, rfl, rfl, rfl⟩

/-- C13, amended. For a stored result that is an object with a `prediction` object
holding a `disease` object, in which `nameEn`, `nameAr`, `severity` and the image `url`
are absent or text, `confidence` is absent or a number, and `details` is absent or an
array of item records (`itemShape`), the render of the result section returns a view:
no property read or conversion throws and React accepts every child. Absent optional
fields give absent sections: no image uri, the default badge colour, no cards (and,
by C12, a card key that falls back to the index and no Arabic text). The image `url`
is passed to the native image view unchecked; it is restricted here to the values
that view takes. -/
theorem result_section_total (host : Host) (percent : JSValue → JSString)
    (fields pf df : List (JSString × JSValue))
    (hpred : lookupField (lit "prediction") fields = JSValue.obj pf)
    (hdis : lookupField (lit "disease") pf = JSValue.obj df)
    (hnameEn : textOrAbsent (lookupField (lit "nameEn") df) = true)
    (hnameAr : textOrAbsent (lookupField (lit "nameAr") df) = true)
    (hsev : textOrAbsent (lookupField (lit "severity") df) = true)
    (hconf : numberOrAbsent (lookupField (lit "confidence") pf) = true)
    (_himage : textOrAbsent (readOpt (lookupField (lit "image") fields) (lit "url")) = true)
    (hdet : lookupField (lit "details") pf = JSValue.undefined
      ∨ lookupField (lit "details") pf = JSValue.null
      ∨ ∃ items, lookupField (lit "details") pf = JSValue.arr items
          ∧ ∀ item ∈ items, itemShape item = true) :
    ∃ color cards,
      severityColor host (lookupField (lit "severity") df) = Except.ok color
      ∧ treatmentCards (lookupField (lit "details") pf) = Except.ok cards
      ∧ renderResult host percent (JSValue.obj fields)
        = Except.ok (Guarded.element
            { imageUri := readOpt (lookupField (lit "image") fields) (lit "url")
              nameEn := lookupField (lit "nameEn") df
              nameAr := lookupField (lit "nameAr") df
              badgeColor := color
              badgeText := lookupField (lit "severity") df
              confidence := percent (lookupField (lit "confidence") pf)
              cards := cards })
      ∧ (lookupField (lit "image") fields = JSValue.undefined →
          readOpt (lookupField (lit "image") fields) (lit "url") = JSValue.undefined)
      ∧ (lookupField (lit "severity") df = JSValue.undefined → color = lit "#999")
      ∧ (lookupField (lit "details") pf = JSValue.undefined → cards = none) := by
  obtain ⟨color, hc, hc0⟩ := severityColor_of_text host _ hsev
  have hcards : ∃ cards, treatmentCards (lookupField (lit "details") pf) = Except.ok cards
      ∧ keysCoerce cards = true
      ∧ (match cards with
         | none => true
         | some list => list.all cardMounts) = true
      ∧ (lookupField (lit "details") pf = JSValue.undefined → cards = none) := by
    rcases hdet with h | h | ⟨items, h, hitems⟩
    · exact ⟨none, by rw [h]; rfl, rfl, rfl, fun _ => rfl⟩
    · exact ⟨none, by rw [h]; rfl, rfl, rfl, fun _ => rfl⟩
    · obtain ⟨cards, hmap, hkeys, hmounts⟩ := mapCards_of_shape items 0 hitems
      exact ⟨some cards, by rw [h]; simp only [treatmentCards, hmap], hkeys, hmounts,
        fun h2 => by rw [h] at h2; cases h2⟩
  obtain ⟨cards, hk, hkeys, hmounts, hk0⟩ := hcards
  have hbuilt : resultSection host percent (JSValue.obj fields)
      = Except.ok (Guarded.element
          { imageUri := readOpt (lookupField (lit "image") fields) (lit "url")
            nameEn := lookupField (lit "nameEn") df
            nameAr := lookupField (lit "nameAr") df
            badgeColor := color
            badgeText := lookupField (lit "severity") df
            confidence := percent (lookupField (lit "confidence") pf)
            cards := cards }) := by
    simp [resultSection, JSValue.truthy, readProp, built, hpred, hdis, hc, hk, hkeys,
      coercible_of_number _ hconf, bind, Except.bind, pure, Except.pure]
  refine ⟨color, cards, hc, hk, ?_, ?_, hc0, hk0⟩
  · simp only [renderResult, hbuilt, sectionMounts, validChild_of_text _ hnameEn,
      validChild_of_text _ hnameAr, validChild_of_text _ hsev, hmounts, Bool.and_self,
      if_true]
  · intro h
    rw [h]
    rfl

/-- Witness for C13 (amended): `bareResult`, a result with names and confidence
only. -/
theorem result_section_total_witness :
    renderResult sampleHost samplePercent bareResult
      = Except.ok (Guarded.element
          { imageUri := JSValue.undefined
            nameEn := JSValue.str (lit "Leaf Rust")
            nameAr := JSValue.str (lit "Sada")
            badgeColor := lit "#999"
            badgeText := JSValue.undefined
            confidence := samplePercent (JSValue.num 87 (-2))
            cards := none }) := by
  obtain ⟨color, cards, _, _, hview, _, hc0, hk0⟩ :=
    result_section_total sampleHost samplePercent
      [(lit "prediction", JSValue.obj
        [(lit "disease", JSValue.obj [(lit "nameEn", JSValue.str (lit "Leaf Rust")),
                                      (lit "nameAr", JSValue.str (lit "Sada"))]),
         (lit "confidence", JSValue.num 87 (-2))])]
      [(lit "disease", JSValue.obj [(lit "nameEn", JSValue.str (lit "Leaf Rust")),
                                    (lit "nameAr", JSValue.str (lit "Sada"))]),
       (lit "confidence", JSValue.num 87 (-2))]
      [(lit "nameEn", JSValue.str (lit "Leaf Rust")), (lit "nameAr", JSValue.str (lit "Sada"))]
      rfl rfl rfl rfl rfl rfl rfl (Or.inl rfl)
  rw [hc0 rfl, hk0 rfl] at hview
  exact hview

/-! ## C14 — what is held while the result view is shown -/

theorem settleUpload_stored (host : Host) (s : ScreenState) (outcome : FetchOutcome) :
    (settleUpload host s outcome).1 = { s with isUploading := false }
    ∨ ∃ t d result, host.jsonParse t = some d
        ∧ getProp host d (lit "data") = Except.ok result
        ∧ (settleUpload host s outcome).1
          = { s with scanResult := result, modalVisible := true, capturedImage := none,
                     isUploading := false } := by
  cases outcome with
  | rejected e => exact Or.inl rfl
  | response status t =>
    cases hp : host.jsonParse t with
    | none =>
      left
      simp only [settleUpload, afterFetch_unparsed host s status t hp]
    | some d =>
      cases hok : responseOk status with
      | false =>
        left
        obtain ⟨_, _, _, h⟩ := settleUpload_failed host s (FetchOutcome.response status t)
          (by simp [uploadFailed, hok])
        rw [h]
      | true =>
        cases hg : getProp host d (lit "data") with
        | error e =>
          left
          simp [settleUpload, afterFetch, hp, hok, hg]
        | ok r =>
          right
          exact ⟨t, d, r, hp, hg, by simp [settleUpload, afterFetch, hp, hok, hg]⟩

theorem shown_onPress (host : Host) (sys : Sys) (c : Control) (f : ScreenState → ScreenState)
    (h : ShownFromResponse host sys.ui)
    (hf : ∀ s, (f s).modalVisible = false
      ∨ ((f s).modalVisible = s.modalVisible ∧ (f s).scanResult = s.scanResult)) :
    ShownFromResponse host (onPress c sys f).ui := by
  unfold onPress
  split
  · intro hm
    have hm2 : (f sys.ui).modalVisible = true := hm
    rcases hf sys.ui with h0 | ⟨h1, h2⟩
    · rw [h0] at hm2; cases hm2
    · show ∃ t d, _ ∧ _ = Except.ok (f sys.ui).scanResult
      rw [h2]
      exact h (h1 ▸ hm2)
  · exact h

theorem shown_step (host : Host) (sys : Sys) (e : Event)
    (h : ShownFromResponse host sys.ui) : ShownFromResponse host (step host sys e).ui := by
  cases e with
  | toggleFlash => exact shown_onPress host sys _ toggleFlash h (fun _ => Or.inr ⟨rfl, rfl⟩)
  | toggleCameraType =>
    exact shown_onPress host sys _ toggleCameraType h (fun _ => Or.inr ⟨rfl, rfl⟩)
  | shutter outcome =>
    exact shown_onPress host sys _ (fun s => (takePicture s outcome).1) h
      (fun _ => Or.inr (by cases outcome <;> exact ⟨rfl, rfl⟩))
  | gallery outcome =>
    exact shown_onPress host sys _ (fun s => (pickImage s outcome).1) h
      (fun _ => Or.inr (by cases outcome <;> exact ⟨rfl, rfl⟩))
  | retake => exact shown_onPress host sys _ handleRetake h (fun _ => Or.inr ⟨rfl, rfl⟩)
  | modalRequestClose => exact shown_onPress host sys _ dismissModal h (fun _ => Or.inl rfl)
  | modalClose => exact shown_onPress host sys _ dismissModal h (fun _ => Or.inl rfl)
  | modalDone => exact shown_onPress host sys _ dismissModal h (fun _ => Or.inl rfl)
  | usePhoto userToken =>
    show ShownFromResponse host (if Control.usePhoto ∈ controls sys.ui then
      match startUpload host userToken sys.ui with
      | none => sys
      | some (s1, req) => { ui := s1, inFlight := sys.inFlight ++ [req] }
      else sys).ui
    split
    · cases hc : sys.ui.capturedImage with
      | none => simpa [startUpload, hc] using h
      | some l =>
        cases l with
        | nil => simpa [startUpload, hc] using h
        | cons c cs =>
          rw [startUpload_held host userToken (c :: cs) sys.ui hc (by simp)]
          exact h
    · exact h
  | settled outcome =>
    show ShownFromResponse host (match sys.inFlight with
      | [] => sys
      | _ :: rest => { ui := (settleUpload host sys.ui outcome).1, inFlight := rest }).ui
    cases sys.inFlight with
    | nil => exact h
    | cons r rest =>
      rcases settleUpload_stored host sys.ui outcome with hs | ⟨t, d, result, hp, hg, hs⟩
      · simp only [hs]
        exact h
      · simp only [hs]
        exact fun _ => ⟨t, d, hp, hg⟩

theorem shown_foldl (host : Host) (events : List Event) (sys : Sys)
    (h : ShownFromResponse host sys.ui) :
    ShownFromResponse host (events.foldl (step host) sys).ui := by
  induction events generalizing sys with
  | nil => exact h
  | cons e rest ih => exact ih _ (shown_step host sys e h)

/-- C14, counterexample. A 200 whose body is an object without `data`, and one whose
`data` is `null`: the modal is visible while `scanResult` is `undefined`, respectively
`null`. -/
theorem shown_without_result :
    (run (hostReading (JSValue.obj [])) (uploadEvents 200)).ui.modalVisible = true
    ∧ (run (hostReading (JSValue.obj [])) (uploadEvents 200)).ui.scanResult
        = JSValue.undefined
    ∧ (run (hostReading (JSValue.obj [(lit "data", JSValue.null)]))
        (uploadEvents 200)).ui.modalVisible = true
    ∧ (run (hostReading (JSValue.obj [(lit "data", JSValue.null)]))
        (uploadEvents 200)).ui.scanResult = JSValue.null := by
  exact ⟨rfl, rfl, rfl, rfl⟩

/-- C14, amended. In every reachable state where the result view is shown
(`modalVisible` is true), no image handle is held and no upload is running, so
neither Retake nor Use Photo is offered: ResultShown and Reviewing exclude each other.
What `scanResult` holds then is the value of `data.data` of a parsed response body,
which may be `null` or `undefined`. -/
theorem shown_excludes_reviewing (host : Host) (sys : Sys)
    (hreach : Reachable host sys)
    (hshown : sys.ui.modalVisible = true) :
    sys.ui.capturedImage = none
    ∧ sys.ui.isUploading = false
    ∧ sys.inFlight = []
    ∧ Control.retake ∉ controls sys.ui
    ∧ Control.usePhoto ∉ controls sys.ui
    ∧ ∃ t d, host.jsonParse t = some d
        ∧ getProp host d (lit "data") = Except.ok sys.ui.scanResult := by
  obtain ⟨events, rfl⟩ := hreach
  have h := inv_run host events
  have himg := h.modal_image hshown
  have hup : (run host events).ui.isUploading = false := by
    cases hu : (run host events).ui.isUploading with
    | false => rfl
    | true =>
      have := h.uploading_image hu
      rw [himg] at this; cases this
  have hfl : (run host events).inFlight = [] := by
    by_contra hne
    have := h.uploading_iff.2 hne
    rw [hup] at this; cases this
  have hstored : ShownFromResponse host (run host events).ui :=
    shown_foldl host events initialSys (fun hm => by cases hm)
  refine ⟨himg, hup, hfl, ?_, ?_, hstored hshown⟩
  · intro hmem
    have := ((mem_controls_preview _ _ (Or.inl rfl)).1 hmem).1
    rw [himg] at this; cases this
  · intro hmem
    have := ((mem_controls_preview _ _ (Or.inr rfl)).1 hmem).1
    rw [himg] at this; cases this

/-- Witness for C14 (amended): the shown result of `shownEvents`. -/
theorem shown_excludes_reviewing_witness :
    (run sampleHost shownEvents).ui.capturedImage = none
    ∧ (run sampleHost shownEvents).ui.isUploading = false
    ∧ (run sampleHost shownEvents).inFlight = []
    ∧ Control.retake ∉ controls (run sampleHost shownEvents).ui
    ∧ Control.usePhoto ∉ controls (run sampleHost shownEvents).ui
    ∧ ∃ t d, sampleHost.jsonParse t = some d
        ∧ getProp sampleHost d (lit "data")
          = Except.ok (run sampleHost shownEvents).ui.scanResult :=
  shown_excludes_reviewing sampleHost (run sampleHost shownEvents) ⟨shownEvents, rfl⟩ rfl

/-! ## C15 — the login token -/

theorem loginToken_of_ne (d : JSValue)
    (hnull : d ≠ JSValue.null) (hundef : d ≠ JSValue.undefined) :
    loginToken d = Except.ok
      (if (readOpt (readOpt (readOpt d (lit "data")) (lit "token")) (lit "access")).truthy = true
       then readOpt (readOpt (readOpt d (lit "data")) (lit "token")) (lit "access")
       else if (readOpt d (lit "token")).truthy = true then readOpt d (lit "token")
       else readOpt d (lit "accessToken")) := by
  simp only [loginToken, readProp_of_ne d _ hnull hundef, bind, Except.bind, pure, Except.pure]
  split_ifs <;> rfl

theorem handleLogin_success (env : LoginEnv) (net : LoginRequest → LoginOutcome)
    (s : LoginState) (status : Nat) (d token : JSValue)
    (hemail : s.email ≠ []) (hpw : s.password ≠ [])
    (hnet : net (loginRequest env s) = LoginOutcome.response status d)
    (hok : responseOk status = true)
    (htoken : loginToken d = Except.ok token) :
    handleLogin env net s
      = if token.truthy = true then
          ({ s with errorMessage := JSValue.str (lit ""), isLoading := false },
           [LoginEffect.fetch (loginRequest env s), LoginEffect.signIn token])
        else
          ({ s with errorMessage := JSValue.str (lit "Login successful but no token received.")
                    isLoading := false },
           [LoginEffect.fetch (loginRequest env s)]) := by
  have he : s.email.isEmpty = false := by
    cases h : s.email with
    | nil => exact absurd h hemail
    | cons c cs => rfl
  have hp : s.password.isEmpty = false := by
    cases h : s.password with
    | nil => exact absurd h hpw
    | cons c cs => rfl
  simp only [handleLogin, he, hp, Bool.or_self, Bool.false_eq_true, if_false, hnet, hok,
    if_true, htoken]

theorem handleLogin_not_loading (env : LoginEnv) (net : LoginRequest → LoginOutcome)
    (s : LoginState) (hemail : s.email ≠ []) (hpw : s.password ≠ []) :
    (handleLogin env net s).1.isLoading = false := by
  have he : s.email.isEmpty = false := by
    cases h : s.email with
    | nil => exact absurd h hemail
    | cons c cs => rfl
  have hp : s.password.isEmpty = false := by
    cases h : s.password with
    | nil => exact absurd h hpw
    | cons c cs => rfl
  simp only [handleLogin, he, hp, Bool.or_self, Bool.false_eq_true, if_false]
  cases net (loginRequest env s) with
  | failed => rfl
  | response status d =>
    cases hok : responseOk status with
    | true =>
      simp only [hok, if_true]
      cases loginToken d with
      | error e => rfl
      | ok token =>
        simp only []
        split_ifs <;> rfl
    | false =>
      simp only [hok, Bool.false_eq_true, if_false]
      cases readProp d (lit "message") with
      | error e => rfl
      | ok m => rfl

/-- C15, counterexample. A 200 login response whose body is the JSON value `null`:
reading `data.data` throws, so `signIn` is not called and the message set is the
connection error of the `catch` clause, not `Login successful but no token received.` -/
theorem login_null_body :
    handleLogin sampleLoginEnv (fun _ => LoginOutcome.response 200 JSValue.null) sampleLogin
      = ({ sampleLogin with
             errorMessage := JSValue.str (lit "Unable to connect to server. Check your internet.")
             isLoading := false },
         [LoginEffect.fetch (loginRequest sampleLoginEnv sampleLogin)]) := by
  rfl

/-- C15, amended. For a submitted form and a 2xx login response whose parsed body `d`
is not `null`: `signIn` is called exactly when one of `d.data?.token?.access`,
`d.token`, `d.accessToken` is truthy (present and not empty), once, with the first
truthy one in that order; otherwise `signIn` is not called and the error message is
`Login successful but no token received.` Whatever the network does, `isLoading` ends
false. -/
theorem login_token_selection (env : LoginEnv) (net : LoginRequest → LoginOutcome)
    (s : LoginState) (status : Nat) (d : JSValue)
    (hemail : s.email ≠ []) (hpw : s.password ≠ [])
    (hnet : net (loginRequest env s) = LoginOutcome.response status d)
    (hlo : 200 ≤ status) (hhi : status ≤ 299)
    (hnull : d ≠ JSValue.null) (hundef : d ≠ JSValue.undefined) :
    ((readOpt (readOpt (readOpt d (lit "data")) (lit "token")) (lit "access")).truthy = true →
        signInCalls (handleLogin env net s).2
          = [readOpt (readOpt (readOpt d (lit "data")) (lit "token")) (lit "access")])
    ∧ ((readOpt (readOpt (readOpt d (lit "data")) (lit "token")) (lit "access")).truthy = false →
        (readOpt d (lit "token")).truthy = true →
        signInCalls (handleLogin env net s).2 = [readOpt d (lit "token")])
    ∧ ((readOpt (readOpt (readOpt d (lit "data")) (lit "token")) (lit "access")).truthy = false →
        (readOpt d (lit "token")).truthy = false →
        (readOpt d (lit "accessToken")).truthy = true →
        signInCalls (handleLogin env net s).2 = [readOpt d (lit "accessToken")])
    ∧ ((readOpt (readOpt (readOpt d (lit "data")) (lit "token")) (lit "access")).truthy = false →
        (readOpt d (lit "token")).truthy = false →
        (readOpt d (lit "accessToken")).truthy = false →
        signInCalls (handleLogin env net s).2 = []
        ∧ (handleLogin env net s).1
          = { s with errorMessage := JSValue.str (lit "Login successful but no token received.")
                     isLoading := false })
    ∧ (signInCalls (handleLogin env net s).2 ≠ [] →
        (handleLogin env net s).1
          = { s with errorMessage := JSValue.str (lit ""), isLoading := false })
    ∧ (∀ other : LoginRequest → LoginOutcome, (handleLogin env other s).1.isLoading = false) := by
  have hok : responseOk status = true := by simp [responseOk, hlo, hhi]
  have hrun := handleLogin_success env net s status d _ hemail hpw hnet hok
    (loginToken_of_ne d hnull hundef)
  refine ⟨?_, ?_, ?_, ?_, ?_, fun other => handleLogin_not_loading env other s hemail hpw⟩
  · intro ha
    rw [hrun]
    simp [ha, signInCalls]
  · intro ha hb
    rw [hrun]
    simp [ha, hb, signInCalls]
  · intro ha hb hc
    rw [hrun]
    simp [ha, hb, hc, signInCalls]
  · intro ha hb hc
    rw [hrun]
    simp [ha, hb, hc, signInCalls]
  · rw [hrun]
    split_ifs <;> simp [signInCalls]

/-- Witness for C15 (amended): a 200 whose body carries `accessToken` only. -/
theorem login_token_selection_witness :
    signInCalls (handleLogin sampleLoginEnv
        (fun _ => LoginOutcome.response 200
          (JSValue.obj [(lit "accessToken", JSValue.str (lit "abc"))])) sampleLogin).2
      = [readOpt (JSValue.obj [(lit "accessToken", JSValue.str (lit "abc"))])
          (lit "accessToken")] :=
  (login_token_selection sampleLoginEnv
      (fun _ => LoginOutcome.response 200
        (JSValue.obj [(lit "accessToken", JSValue.str (lit "abc"))]))
      sampleLogin 200 (JSValue.obj [(lit "accessToken", JSValue.str (lit "abc"))])
      (by decide) (by decide) rfl (by decide) (by decide) (by simp) (by simp)).2.2.1
    rfl rfl rfl

end GreenShield
